import Mathlib

/-!
Shallow embedding of the CheatRenderFramework overlay renderer
(src/factories/dx9/renderer_dx9.hpp and src/factories/dx11/renderer_dx11.hpp).

Modelling conventions:
* machine floats become exact rationals (ℚ); the C++ literal 0.5f is (1/2 : ℚ),
  0.9f is (9/10 : ℚ), and so on;
* GPU texture pointers become `Option Nat` (`none` = nullptr);
* `std::wstring` becomes `List Char`; `std::vector` becomes `List`;
* the mutable RenderList becomes explicit state passing;
* throwing C++ functions return `Except String`;
* `std::sqrtf`, an external libm call, is passed in as a function parameter
  `sq : ℚ → ℚ` where it is needed (only `Renderer::AddLine` in DX9).
-/

namespace CRF

/-- The C++ `Color`: 32-bit packed channel value, identical layout of the field in both
backends (`uint32_t _color`, default `0xFF000000`). -/
structure Color where
  val : Nat
deriving DecidableEq

/-- The default-constructed `Color` (opaque black). -/
def Color.defaultColor : Color := ⟨0xFF000000⟩

/-- The C function `iswxdigit` in the C locale: the characters 0-9, a-f, A-F. -/
def iswxdigitB (c : Char) : Bool :=
  (decide ('0' ≤ c) && decide (c ≤ '9')) ||
    (decide ('a' ≤ c) && decide (c ≤ 'f')) ||
    (decide ('A' ≤ c) && decide (c ≤ 'F'))

/-- Value of one hexadecimal digit, as consumed by `wcstoul(..., 16)`. -/
def hexDigitVal (c : Char) : Nat :=
  if '0' ≤ c ∧ c ≤ '9' then c.toNat - '0'.toNat
  else if 'a' ≤ c ∧ c ≤ 'f' then c.toNat - 'a'.toNat + 10
  else if 'A' ≤ c ∧ c ≤ 'F' then c.toNat - 'A'.toNat + 10
  else 0

/-- Model of `wcstoul(colorStr, nullptr, 16)` on a string of hexadecimal digits.
The strings built by `PreprocessText` have at most 10 digits after the
mandatory "ff" prefix trim, so the value always fits an `unsigned long`. -/
def hexVal (cs : List Char) : Nat :=
  cs.foldl (fun a c => 16 * a + hexDigitVal c) 0

/-- The C++ `Font::TextSegment = std::pair<std::wstring, Color>`. -/
abbrev TextSegment := List Char × Color

/-- The tag-recognition test of `Font::PreprocessText` at index `i`:
`text[i] == L'{' && text.size() > i + 11 && text[i+1] == L'#'` together with
the inner test `text[i+10] == L'}' || text[i+8] == L'}'`.  The code never
checks that the characters between the braces are hexadecimal digits. -/
def recogB (s : List Char) (i : Nat) : Bool :=
  (s.getD i ' ' == '{') && decide (i + 11 < s.length) && (s.getD (i + 1) ' ' == '#') &&
    ((s.getD (i + 10) ' ' == '}') || (s.getD (i + 8) ' ' == '}'))

/-- The scan loop of `Font::PreprocessText` (identical in the DX9 and DX11
headers), with loop index `i`, accumulator `cleanText` and active color.
`i += hasAlpha ? 10 : 8; continue;` plus the loop increment advances the
index by 11 or 9. -/
def preprocessGo (s : List Char) (i : Nat) (clean : List Char) (cur : Color) :
    List TextSegment :=
  if _hlt : i < s.length then
    if recogB s i then
      let hasAlpha := s.getD (i + 10) ' ' == '}'
      let segs := if clean.isEmpty then [] else [(clean, cur)]
      let colorStr := ((s.drop (i + 2)).take (if hasAlpha then 8 else 6)).filter iswxdigitB
      let colorStr2 := if !hasAlpha then 'f' :: 'f' :: colorStr else colorStr
      segs ++ preprocessGo s (i + (if hasAlpha then 11 else 9)) [] ⟨hexVal colorStr2⟩
    else
      preprocessGo s (i + 1) (clean ++ [s.getD i ' ']) cur
  else
    if clean.isEmpty then [] else [(clean, cur)]
termination_by s.length - i
decreasing_by all_goals (simp_wf; (try split_ifs) <;> omega)

/-- Model of `Font::PreprocessText(text, defaultColor)`. -/
def PreprocessText (s : List Char) (defaultColor : Color) : List TextSegment :=
  preprocessGo s 0 [] defaultColor

/-- Concatenation of the segment texts, as `RenderText` computes `cleanedText`. -/
def concatTexts (segs : List TextSegment) : List Char :=
  (segs.map Prod.fst).flatten

/-- Only the character stream of the scan loop: the text that survives into
the concatenated segment texts, starting at index `i`. -/
def cleanedFrom (s : List Char) (i : Nat) : List Char :=
  if _hlt : i < s.length then
    if recogB s i then
      cleanedFrom s (i + (if s.getD (i + 10) ' ' == '}' then 11 else 9))
    else
      s.getD i ' ' :: cleanedFrom s (i + 1)
  else []
termination_by s.length - i
decreasing_by all_goals (simp_wf; (try split_ifs) <;> omega)

/-! ### The batching render list

`RenderList::AddVertices` has the same algorithm in both backends; they
differ only in the vertex/topology/texture types, in which topologies count
as strips, and in the break batch that terminates a strip
(`{0, D3DPT_FORCE_DWORD, nullptr}` in DX9,
`{0, D3D11_PRIMITIVE_TOPOLOGY_TRIANGLELIST, nullptr}` in DX11).  The common
algorithm is given once, parameterised by exactly those three points, and
each backend instantiates it. -/

/-- The C++ `struct Batch { std::size_t count; TopologyType topology; <texture>; }`. -/
structure Batch (Topol Tex : Type) where
  count : Nat
  topology : Topol
  texture : Tex
deriving DecidableEq

/-- The CPU-side state of a `RenderList`: `_vertices` and `_batches`. -/
structure RenderList (V Topol Tex : Type) where
  vertices : List V
  batches : List (Batch Topol Tex)
deriving DecidableEq

/-- A freshly constructed `RenderList` (the constructor only reserves
capacity, which the model has no need to track). -/
def emptyRL (V Topol Tex : Type) : RenderList V Topol Tex := ⟨[], []⟩

/-- The batch-opening test of `AddVertices`:
`_batches.empty() || _batches.back().topology != topology || _batches.back().<texture> != <texture>`. -/
def needNewBatch [DecidableEq Topol] [DecidableEq Tex]
    (bs : List (Batch Topol Tex)) (t : Topol) (tex : Tex) : Bool :=
  match bs.getLast? with
  | none => true
  | some b => (b.topology != t) || (b.texture != tex)

/-- Model of `_batches.back().count += n` (the list is never empty at this point in
`AddVertices`; on `[]` the model is the identity). -/
def bumpLast (bs : List (Batch Topol Tex)) (n : Nat) : List (Batch Topol Tex) :=
  match bs with
  | [] => []
  | [b] => [⟨b.count + n, b.topology, b.texture⟩]
  | b :: b2 :: rest => b :: bumpLast (b2 :: rest) n

/-- Model of `RenderList::AddVertices(vertexArray, vertexArrayCount, topology, texture)`:
open a new batch if the key changed, add the vertex count to the last batch,
append the vertices, and after a strip topology append the break batch `brk`
"to force the end of the strip". -/
def addVerticesCore [DecidableEq Topol] [DecidableEq Tex]
    (strip : Topol → Bool) (brk : Batch Topol Tex)
    (l : RenderList V Topol Tex) (vs : List V) (t : Topol) (tex : Tex) :
    RenderList V Topol Tex :=
  let bs0 := if needNewBatch l.batches t tex then l.batches ++ [⟨0, t, tex⟩] else l.batches
  let bs1 := bumpLast bs0 vs.length
  let bs2 := if strip t then bs1 ++ [brk] else bs1
  ⟨l.vertices ++ vs, bs2⟩

/-- Model of `RenderList::Clear()`. -/
def clearRL (l : RenderList V Topol Tex) : RenderList V Topol Tex :=
  let _ := l
  ⟨[], []⟩

/-- One client call on a `RenderList`: either `AddVertices` or `Clear`. -/
inductive RLOp (V Topol Tex : Type)
  | add (vs : List V) (t : Topol) (tex : Tex)
  | clear

/-- Run one `RLOp`. -/
def applyOp [DecidableEq Topol] [DecidableEq Tex] (strip : Topol → Bool) (brk : Batch Topol Tex)
    (l : RenderList V Topol Tex) : RLOp V Topol Tex → RenderList V Topol Tex
  | .add vs t tex => addVerticesCore strip brk l vs t tex
  | .clear => clearRL l

/-- Run a sequence of `RLOp`s in order. -/
def applyOps [DecidableEq Topol] [DecidableEq Tex] (strip : Topol → Bool) (brk : Batch Topol Tex)
    (ops : List (RLOp V Topol Tex)) (l : RenderList V Topol Tex) : RenderList V Topol Tex :=
  ops.foldl (applyOp strip brk) l

/-- Run a sequence of `AddVertices` calls in order. -/
def applyCalls [DecidableEq Topol] [DecidableEq Tex] (strip : Topol → Bool) (brk : Batch Topol Tex)
    (calls : List (List V × Topol × Tex)) (l : RenderList V Topol Tex) : RenderList V Topol Tex :=
  calls.foldl (fun l c => addVerticesCore strip brk l c.1 c.2.1 c.2.2) l

/-- Total vertex count described by a batch list. -/
def sumCounts (bs : List (Batch Topol Tex)) : Nat :=
  (bs.map Batch.count).sum

namespace DX9

/-- The `D3DPRIMITIVETYPE` enum (the members this header uses). -/
inductive TopologyType
  | D3DPT_POINTLIST
  | D3DPT_LINELIST
  | D3DPT_LINESTRIP
  | D3DPT_TRIANGLELIST
  | D3DPT_TRIANGLESTRIP
  | D3DPT_TRIANGLEFAN
  | D3DPT_FORCE_DWORD
deriving DecidableEq

/-- Model of `IDirect3DTexture9*`; `none` is `nullptr`. -/
abbrev Texture := Option Nat

/-- The C++ `struct Vertex { Vec4 position; Color color; Vec2 tex; }` (`D3DFVF_XYZRHW`). -/
structure Vertex where
  position : ℚ × ℚ × ℚ × ℚ
  color : Color
  tex : ℚ × ℚ
deriving DecidableEq

abbrev RL := RenderList Vertex TopologyType Texture

/-- The strip cases of the `switch (topology)` at the end of
`RenderList::AddVertices`. -/
def isStripTopology : TopologyType → Bool
  | .D3DPT_LINESTRIP => true
  | .D3DPT_TRIANGLESTRIP => true
  | _ => false

/-- The empty batch appended after a strip:
`_batches.emplace_back(0, D3DPT_FORCE_DWORD, nullptr)`. -/
def breakBatch : Batch TopologyType Texture := ⟨0, .D3DPT_FORCE_DWORD, none⟩

/-- DX9 `RenderList::AddVertices`. -/
def AddVertices (l : RL) (vs : List Vertex) (t : TopologyType) (tex : Texture) : RL :=
  addVerticesCore isStripTopology breakBatch l vs t tex

/-- Model of `util::IsTopologyList`. -/
def IsTopologyList : TopologyType → Bool
  | .D3DPT_POINTLIST => true
  | .D3DPT_LINELIST => true
  | .D3DPT_TRIANGLELIST => true
  | _ => false

/-- Model of `util::GetTopologyOrder`. -/
def GetTopologyOrder : TopologyType → Nat
  | .D3DPT_POINTLIST => 1
  | .D3DPT_LINELIST => 2
  | .D3DPT_LINESTRIP => 2
  | .D3DPT_TRIANGLELIST => 3
  | .D3DPT_TRIANGLESTRIP => 3
  | .D3DPT_TRIANGLEFAN => 3
  | .D3DPT_FORCE_DWORD => 0

/-- One issued DX9 draw call: `SetTexture(0, batch.d3dTexture)` followed by
`DrawPrimitive(batch.topology, pos, primitiveCount)`. -/
structure Draw where
  topology : TopologyType
  texture : Texture
  startVertex : Nat
  primitiveCount : Nat
deriving DecidableEq

/-- The draw-call loop of DX9 `Renderer::Render(renderList)`: a batch is
drawn only when `batch.count && order > 0`; the vertex cursor `pos` advances
only for drawn batches. -/
def RenderBatches : List (Batch TopologyType Texture) → Nat → List Draw
  | [], _ => []
  | b :: rest, pos =>
    let order := GetTopologyOrder b.topology
    if b.count ≠ 0 ∧ 0 < order then
      let primitiveCount := if IsTopologyList b.topology then b.count / order else b.count - (order - 1)
      ⟨b.topology, b.texture, pos, primitiveCount⟩ :: RenderBatches rest (pos + b.count)
    else
      RenderBatches rest pos

/-- DX9 `Renderer::Render(renderList)`, restricted to its observable output
towards the graphics backend: the sequence of draw calls it issues.  (The
one-shot vertex-buffer upload of `_vertices` is not modelled; the claims are
about the draw calls.) -/
def Render (l : RL) : List Draw :=
  RenderBatches l.batches 0

/-- Each batch paired with the prefix sum of the counts of all preceding
batches (the vertex offset the claim ascribes to it). -/
def withOffsets : List (Batch TopologyType Texture) → Nat → List (Batch TopologyType Texture × Nat)
  | [], _ => []
  | b :: rest, off => (b, off) :: withOffsets rest (off + b.count)

/-- Specification-side description of the DX9 draw-call sequence, written
from the claim's words: one draw call per batch with nonzero count and
recognised topology, in batch order, at the batch's prefix-sum offset, with
the DrawPrimitive primitive count. -/
def drawsSpec (bs : List (Batch TopologyType Texture)) : List Draw :=
  (withOffsets bs 0).filterMap fun p =>
    if p.1.count ≠ 0 ∧ 0 < GetTopologyOrder p.1.topology then
      some ⟨p.1.topology, p.1.texture, p.2,
            if IsTopologyList p.1.topology then p.1.count / GetTopologyOrder p.1.topology
            else p.1.count - (GetTopologyOrder p.1.topology - 1)⟩
    else none

/-! #### DX9 `Font` -/

/-- One entry of `_charCoords`: `std::array<float, 4>` = `{tx1, ty1, tx2, ty2}`. -/
structure CharRect where
  tx1 : ℚ
  ty1 : ℚ
  tx2 : ℚ
  ty2 : ℚ
deriving DecidableEq

/-- The fields of a built `Font` that `RenderText`/`CalculateTextExtent` read.
`charCoords` models `std::map<wchar_t, std::array<float,4>>::find`; the reads
of `_charCoords[L' ']` (map `operator[]`, which default-inserts `{0,0,0,0}`)
are modelled by `(charCoords ' ').getD ⟨0,0,0,0⟩`. -/
structure FontData where
  charCoords : Char → Option CharRect
  textureWidth : ℚ
  textureHeight : ℚ
  textScale : ℚ
  charSpacing : ℚ
  fontTexture : Texture

/-- The row height `(_charCoords[L' '][3] - _charCoords[L' '][1]) * _textureHeight`
used for `'\n'` and by `CalculateTextExtent`. -/
def rowHeight (f : FontData) : ℚ :=
  (((f.charCoords ' ').getD ⟨0, 0, 0, 0⟩).ty2 - ((f.charCoords ' ').getD ⟨0, 0, 0, 0⟩).ty1) *
    f.textureHeight

/-- DX9 `Font::CalculateTextExtent`.  The fold state is
`(rowWidth, width, height)`. -/
def CalculateTextExtent (f : FontData) (text : List Char) : ℚ × ℚ :=
  let rh := rowHeight f
  let st := text.foldl
    (fun (acc : ℚ × ℚ × ℚ) c =>
      if c = '\n' then (0, max acc.2.1 acc.1, acc.2.2 + rh)
      else if ' ' ≤ c then
        match f.charCoords c with
        | some r => (acc.1 + ((r.tx2 - r.tx1) * f.textureWidth / f.textScale - 2 * f.charSpacing),
                      acc.2.1, acc.2.2)
        | none => acc
      else acc)
    (0, 0, rh)
  (max st.2.1 st.1, st.2.2)

/-- The private `Color::ToHexColor(float, float, float, float)` of the DX9
header: bytes packed as `(a << 24) | (r << 16) | (g << 8) | b`;
`static_cast<uint8_t>` of a non-negative float truncates. -/
def ToHexColorF (r g b a : ℚ) : Nat :=
  let aByte := (⌊a * 255⌋).toNat % 256
  let rByte := (⌊r * 255⌋).toNat % 256
  let gByte := (⌊g * 255⌋).toNat % 256
  let bByte := (⌊b * 255⌋).toNat % 256
  (aByte <<< 24) ||| (rByte <<< 16) ||| (gByte <<< 8) ||| bByte

/-- The DX9 `Color(int r, int g, int b, int a)` constructor. -/
def ColorFromInts (r g b a : ℤ) : Color :=
  ⟨ToHexColorF ((r : ℚ) / 255) ((g : ℚ) / 255) ((b : ℚ) / 255) ((a : ℚ) / 255)⟩

/-- The six-vertex glyph quad `v` of DX9 `Font::RenderText` (z = 0.9f). -/
def glyphQuad (pos : ℚ × ℚ) (w h : ℚ) (col : Color) (r : CharRect) : List Vertex :=
  [⟨(pos.1 - 1/2, pos.2 - 1/2 + h, 9/10, 1), col, (r.tx1, r.ty2)⟩,
   ⟨(pos.1 - 1/2, pos.2 - 1/2, 9/10, 1), col, (r.tx1, r.ty1)⟩,
   ⟨(pos.1 - 1/2 + w, pos.2 - 1/2 + h, 9/10, 1), col, (r.tx2, r.ty2)⟩,
   ⟨(pos.1 - 1/2 + w, pos.2 - 1/2, 9/10, 1), col, (r.tx2, r.ty1)⟩,
   ⟨(pos.1 - 1/2 + w, pos.2 - 1/2 + h, 9/10, 1), col, (r.tx2, r.ty2)⟩,
   ⟨(pos.1 - 1/2, pos.2 - 1/2, 9/10, 1), col, (r.tx1, r.ty1)⟩]

/-- The six-vertex outline quad `outlineV` of DX9 `Font::RenderText`
(z = 0.89f, offset by `-outlineThickness`). -/
def outlineQuad (pos : ℚ × ℚ) (w h : ℚ) (oc : Color) (ot : ℚ) (r : CharRect) : List Vertex :=
  [⟨(pos.1 - ot, pos.2 - ot + h, 89/100, 1), oc, (r.tx1, r.ty2)⟩,
   ⟨(pos.1 - ot, pos.2 - ot, 89/100, 1), oc, (r.tx1, r.ty1)⟩,
   ⟨(pos.1 - ot + w, pos.2 - ot + h, 89/100, 1), oc, (r.tx2, r.ty2)⟩,
   ⟨(pos.1 - ot + w, pos.2 - ot, 89/100, 1), oc, (r.tx2, r.ty1)⟩,
   ⟨(pos.1 - ot + w, pos.2 - ot + h, 89/100, 1), oc, (r.tx2, r.ty2)⟩,
   ⟨(pos.1 - ot, pos.2 - ot, 89/100, 1), oc, (r.tx1, r.ty1)⟩]

/-- The six-vertex drop-shadow quad `shadowV` of DX9 `Font::RenderText`
(z = 0.89f, offset by +1 pixel). -/
def shadowQuad (pos : ℚ × ℚ) (w h : ℚ) (sc : Color) (r : CharRect) : List Vertex :=
  [⟨(pos.1 + 1, pos.2 + 1 + h, 89/100, 1), sc, (r.tx1, r.ty2)⟩,
   ⟨(pos.1 + 1, pos.2 + 1, 89/100, 1), sc, (r.tx1, r.ty1)⟩,
   ⟨(pos.1 + 1 + w, pos.2 + 1 + h, 89/100, 1), sc, (r.tx2, r.ty2)⟩,
   ⟨(pos.1 + 1 + w, pos.2 + 1, 89/100, 1), sc, (r.tx2, r.ty1)⟩,
   ⟨(pos.1 + 1 + w, pos.2 + 1 + h, 89/100, 1), sc, (r.tx2, r.ty2)⟩,
   ⟨(pos.1 + 1, pos.2 + 1, 89/100, 1), sc, (r.tx1, r.ty1)⟩]

/-- The background-quad dispatch of DX9 `Font::RenderText`:
`if (flags & TEXT_FLAG_OUTLINE) { AddVertices(outlineV, ...); }
else if (flags & TEXT_FLAG_DROPSHADOW) { AddVertices(shadowV, ...); }`.
Outline is checked first, so it wins when both flags are set. -/
def emitGlyphBackground (o s : Bool) (rl : RL) (outlineV shadowV : List Vertex)
    (tex : Texture) : RL :=
  bif o then AddVertices rl outlineV .D3DPT_TRIANGLELIST tex
  else bif s then AddVertices rl shadowV .D3DPT_TRIANGLELIST tex
  else rl

/-- The per-character body of DX9 `Font::RenderText`'s inner loop.  The fold
state is `(pos, renderList, numToSkip)`; `numToSkip` starts at 0 and is never
set, so the skip branch is dead but kept for fidelity. -/
def charStep (f : FontData) (o s : Bool) (oc : Color) (ot : ℚ) (startX : ℚ) (col : Color)
    (st : (ℚ × ℚ) × RL × Nat) (c : Char) : (ℚ × ℚ) × RL × Nat :=
  let pos := st.1
  let rl := st.2.1
  let numToSkip := st.2.2
  if 0 < numToSkip then (pos, rl, numToSkip - 1)
  else
    let pos := if c = '\n' then (startX, pos.2 + rowHeight f) else pos
    if c < ' ' then (pos, rl, numToSkip)
    else
      match f.charCoords c with
      | none => (pos, rl, numToSkip)
      | some r =>
        let w := (r.tx2 - r.tx1) * f.textureWidth / f.textScale
        let h := (r.ty2 - r.ty1) * f.textureHeight / f.textScale
        let rl :=
          if c ≠ ' ' then
            let shadowColor := ColorFromInts 0 0 0 (((col.val >>> 24) &&& 0xff : Nat) : ℤ)
            AddVertices
              (emitGlyphBackground o s rl (outlineQuad pos w h oc ot r)
                (shadowQuad pos w h shadowColor r) f.fontTexture)
              (glyphQuad pos w h col r) .D3DPT_TRIANGLELIST f.fontTexture
          else rl
        ((pos.1 + (w - 2 * f.charSpacing), pos.2), rl, numToSkip)

/-- DX9 `Font::RenderText`, with the flag tests
(`TEXT_FLAG_RIGHT|TEXT_FLAG_CENTERED` = 14, `TEXT_FLAG_RIGHT` = 2,
`TEXT_FLAG_CENTERED_X` = 4, `TEXT_FLAG_CENTERED_Y` = 8,
`TEXT_FLAG_OUTLINE` = 32, `TEXT_FLAG_DROPSHADOW` = 16) already evaluated to
Booleans. -/
def RenderTextB (f : FontData) (rl : RL) (pos0 : ℚ × ℚ) (text : List Char) (color : Color)
    (bAlign bRight bCX bCY bOutline bShadow : Bool)
    (outlineColor : Color) (outlineThickness : ℚ) : RL :=
  let segments := PreprocessText text color
  let cleanedText := concatTexts segments
  let pos1 :=
    bif bAlign then
      let size := CalculateTextExtent f cleanedText
      let x := bif bRight then pos0.1 - size.1
               else bif bCX then pos0.1 - (1/2) * size.1 else pos0.1
      let y := bif bCY then pos0.2 - (1/2) * size.2 else pos0.2
      (x, y)
    else pos0
  let pos2 := (pos1.1 - f.charSpacing, pos1.2)
  let startX := pos2.1
  let final := segments.foldl
    (fun st seg =>
      seg.1.foldl (charStep f bOutline bShadow outlineColor outlineThickness startX seg.2) st)
    (pos2, rl, 0)
  final.2.1

/-- DX9 `Font::RenderText(renderList, pos, text, color, flags, outlineColor,
outlineThickness)`. -/
def RenderText (f : FontData) (rl : RL) (pos : ℚ × ℚ) (text : List Char) (color : Color)
    (flags : Nat) (outlineColor : Color) (outlineThickness : ℚ) : RL :=
  RenderTextB f rl pos text color
    (flags &&& 14 != 0) (flags &&& 2 != 0) (flags &&& 4 != 0) (flags &&& 8 != 0)
    (flags &&& 32 != 0) (flags &&& 16 != 0) outlineColor outlineThickness

/-- DX9 `Renderer::AddText(renderList, fontId, text, pos, color, flags,
outlineColor, outlineThickness)`: `_fonts.find(fontId)` and a throw when the
handle is unknown (modelled as `Except.error`); nothing is mutated before the
throw, so the caller's lists are untouched on failure. -/
def AddText (fonts : List (Nat × FontData)) (rl : RL) (fontId : Nat) (text : List Char)
    (pos : ℚ × ℚ) (color : Color) (flags : Nat) (outlineColor : Color)
    (outlineThickness : ℚ) : Except String RL :=
  match fonts.lookup fontId with
  | none => .error "AddText(): Font not found!"
  | some f => .ok (RenderText f rl pos text color flags outlineColor outlineThickness)

/-- DX9 `Renderer::AddLine(renderList, v1, v2, color, thickness)`.
`sq` stands for `std::sqrtf`; the code divides by `sq (dx*dx + dy*dy)` with
no zero-length check before building the four-vertex triangle strip. -/
def AddLine (sq : ℚ → ℚ) (rl : RL) (v1 v2 : ℚ × ℚ) (color : Color) (thickness : ℚ) : RL :=
  let dx := v2.1 - v1.1
  let dy := v2.2 - v1.2
  let length := sq (dx * dx + dy * dy)
  let dxn := dx / length
  let dyn := dy / length
  let px := -dyn * thickness * (1/2)
  let py := dxn * thickness * (1/2)
  let v : List Vertex :=
    [⟨(v1.1 + px, v1.2 + py, 0, 1), color, (0, 0)⟩,
     ⟨(v1.1 - px, v1.2 - py, 0, 1), color, (0, 0)⟩,
     ⟨(v2.1 + px, v2.2 + py, 0, 1), color, (0, 0)⟩,
     ⟨(v2.1 - px, v2.2 - py, 0, 1), color, (0, 0)⟩]
  AddVertices rl v .D3DPT_TRIANGLESTRIP none

end DX9

namespace DX11

/-- The `D3D11_PRIMITIVE_TOPOLOGY` enum (the members this header uses). -/
inductive TopologyType
  | D3D11_PRIMITIVE_TOPOLOGY_UNDEFINED
  | D3D11_PRIMITIVE_TOPOLOGY_POINTLIST
  | D3D11_PRIMITIVE_TOPOLOGY_LINELIST
  | D3D11_PRIMITIVE_TOPOLOGY_LINESTRIP
  | D3D11_PRIMITIVE_TOPOLOGY_TRIANGLELIST
  | D3D11_PRIMITIVE_TOPOLOGY_TRIANGLESTRIP
  | D3D11_PRIMITIVE_TOPOLOGY_LINELIST_ADJ
  | D3D11_PRIMITIVE_TOPOLOGY_LINESTRIP_ADJ
  | D3D11_PRIMITIVE_TOPOLOGY_TRIANGLELIST_ADJ
  | D3D11_PRIMITIVE_TOPOLOGY_TRIANGLESTRIP_ADJ
deriving DecidableEq

/-- Model of `ID3D11ShaderResourceView*`; `none` is `nullptr`. -/
abbrev Texture := Option Nat

/-- The C++ `struct Vertex { Vec2 pos; Color color; Vec2 uv; }`. -/
structure Vertex where
  pos : ℚ × ℚ
  color : Color
  uv : ℚ × ℚ
deriving DecidableEq

abbrev RL := RenderList Vertex TopologyType Texture

/-- The strip cases of the `switch (topology)` at the end of
`RenderList::AddVertices`. -/
def isStripTopology : TopologyType → Bool
  | .D3D11_PRIMITIVE_TOPOLOGY_LINESTRIP => true
  | .D3D11_PRIMITIVE_TOPOLOGY_LINESTRIP_ADJ => true
  | .D3D11_PRIMITIVE_TOPOLOGY_TRIANGLESTRIP => true
  | .D3D11_PRIMITIVE_TOPOLOGY_TRIANGLESTRIP_ADJ => true
  | _ => false

/-- The empty batch appended after a strip:
`_batches.emplace_back(0, D3D11_PRIMITIVE_TOPOLOGY_TRIANGLELIST, nullptr)`. -/
def breakBatch : Batch TopologyType Texture :=
  ⟨0, .D3D11_PRIMITIVE_TOPOLOGY_TRIANGLELIST, none⟩

/-- DX11 `RenderList::AddVertices`. -/
def AddVertices (l : RL) (vs : List Vertex) (t : TopologyType) (tex : Texture) : RL :=
  addVerticesCore isStripTopology breakBatch l vs t tex

/-- One issued DX11 draw call: `PSSetShaderResources(0, 1, &batch.texture)`,
`IASetPrimitiveTopology(batch.topology)`, `Draw(batch.count, pos)`. -/
structure Draw where
  topology : TopologyType
  texture : Texture
  vertexCount : Nat
  startVertex : Nat
deriving DecidableEq

/-- The draw-call loop of DX11 `Renderer::Render(renderList)`: every batch is
drawn, unconditionally, and `pos` advances by every batch's count. -/
def RenderBatches : List (Batch TopologyType Texture) → Nat → List Draw
  | [], _ => []
  | b :: rest, pos => ⟨b.topology, b.texture, b.count, pos⟩ :: RenderBatches rest (pos + b.count)

/-- DX11 `Renderer::Render(renderList)`, restricted to the sequence of draw
calls it issues (the vertex-buffer upload and the scissor-rect reset are not
modelled; the claims are about the draw calls). -/
def Render (l : RL) : List Draw :=
  RenderBatches l.batches 0

/-! #### DX11 `Font` -/

/-- One entry of `_charCoords`: `std::array<float, 4>` = `{tx1, ty1, tx2, ty2}`. -/
structure CharRect where
  tx1 : ℚ
  ty1 : ℚ
  tx2 : ℚ
  ty2 : ℚ
deriving DecidableEq

/-- The fields of a built DX11 `Font` that `RenderText`/`CalculateTextExtent`
read.  The DX11 `Font` also holds the target `RenderList` (`_renderList`, a
shared pointer handed to the constructor); the model passes that list
explicitly instead. -/
structure FontData where
  charCoords : Char → Option CharRect
  textureWidth : ℚ
  textureHeight : ℚ
  textScale : ℚ
  charSpacing : ℚ
  fontTextureView : Texture

/-- The row height `(_charCoords[L' '][3] - _charCoords[L' '][1]) * _textureHeight`. -/
def rowHeight (f : FontData) : ℚ :=
  (((f.charCoords ' ').getD ⟨0, 0, 0, 0⟩).ty2 - ((f.charCoords ' ').getD ⟨0, 0, 0, 0⟩).ty1) *
    f.textureHeight

/-- DX11 `Font::CalculateTextExtent` (same algorithm as DX9, with the
`max` macro instead of `std::max`). -/
def CalculateTextExtent (f : FontData) (text : List Char) : ℚ × ℚ :=
  let rh := rowHeight f
  let st := text.foldl
    (fun (acc : ℚ × ℚ × ℚ) c =>
      if c = '\n' then (0, max acc.2.1 acc.1, acc.2.2 + rh)
      else if ' ' ≤ c then
        match f.charCoords c with
        | some r => (acc.1 + ((r.tx2 - r.tx1) * f.textureWidth / f.textScale - 2 * f.charSpacing),
                      acc.2.1, acc.2.2)
        | none => acc
      else acc)
    (0, 0, rh)
  (max st.2.1 st.1, st.2.2)

/-- The private `Color::ToHexColor(float, float, float, float)` of the DX11
header: bytes packed as `(a << 24) | (b << 16) | (g << 8) | r` (ABGR, unlike
the DX9 header's ARGB). -/
def ToHexColorF (r g b a : ℚ) : Nat :=
  let aByte := (⌊a * 255⌋).toNat % 256
  let rByte := (⌊r * 255⌋).toNat % 256
  let gByte := (⌊g * 255⌋).toNat % 256
  let bByte := (⌊b * 255⌋).toNat % 256
  (aByte <<< 24) ||| (bByte <<< 16) ||| (gByte <<< 8) ||| rByte

/-- The DX11 `Color(int r, int g, int b, int a)` constructor. -/
def ColorFromInts (r g b a : ℤ) : Color :=
  ⟨ToHexColorF ((r : ℚ) / 255) ((g : ℚ) / 255) ((b : ℚ) / 255) ((a : ℚ) / 255)⟩

/-- The six-vertex glyph quad `v` of DX11 `Font::RenderText`. -/
def glyphQuad (pos : ℚ × ℚ) (w h : ℚ) (col : Color) (r : CharRect) : List Vertex :=
  [⟨(pos.1 - 1/2, pos.2 - 1/2 + h), col, (r.tx1, r.ty2)⟩,
   ⟨(pos.1 - 1/2, pos.2 - 1/2), col, (r.tx1, r.ty1)⟩,
   ⟨(pos.1 - 1/2 + w, pos.2 - 1/2 + h), col, (r.tx2, r.ty2)⟩,
   ⟨(pos.1 - 1/2 + w, pos.2 - 1/2), col, (r.tx2, r.ty1)⟩,
   ⟨(pos.1 - 1/2 + w, pos.2 - 1/2 + h), col, (r.tx2, r.ty2)⟩,
   ⟨(pos.1 - 1/2, pos.2 - 1/2), col, (r.tx1, r.ty1)⟩]

/-- The six-vertex outline quad `outlineV` of DX11 `Font::RenderText`. -/
def outlineQuad (pos : ℚ × ℚ) (w h : ℚ) (oc : Color) (ot : ℚ) (r : CharRect) : List Vertex :=
  [⟨(pos.1 - ot, pos.2 - ot + h), oc, (r.tx1, r.ty2)⟩,
   ⟨(pos.1 - ot, pos.2 - ot), oc, (r.tx1, r.ty1)⟩,
   ⟨(pos.1 - ot + w, pos.2 - ot + h), oc, (r.tx2, r.ty2)⟩,
   ⟨(pos.1 - ot + w, pos.2 - ot), oc, (r.tx2, r.ty1)⟩,
   ⟨(pos.1 - ot + w, pos.2 - ot + h), oc, (r.tx2, r.ty2)⟩,
   ⟨(pos.1 - ot, pos.2 - ot), oc, (r.tx1, r.ty1)⟩]

/-- The six-vertex drop-shadow quad `shadowV` of DX11 `Font::RenderText`. -/
def shadowQuad (pos : ℚ × ℚ) (w h : ℚ) (sc : Color) (r : CharRect) : List Vertex :=
  [⟨(pos.1 + 1, pos.2 + 1 + h), sc, (r.tx1, r.ty2)⟩,
   ⟨(pos.1 + 1, pos.2 + 1), sc, (r.tx1, r.ty1)⟩,
   ⟨(pos.1 + 1 + w, pos.2 + 1 + h), sc, (r.tx2, r.ty2)⟩,
   ⟨(pos.1 + 1 + w, pos.2 + 1), sc, (r.tx2, r.ty1)⟩,
   ⟨(pos.1 + 1 + w, pos.2 + 1 + h), sc, (r.tx2, r.ty2)⟩,
   ⟨(pos.1 + 1, pos.2 + 1), sc, (r.tx1, r.ty1)⟩]

/-- The background-quad dispatch of DX11 `Font::RenderText`:
`if (flags & TEXT_FLAG_OUTLINE) ... else if (flags & TEXT_FLAG_DROPSHADOW) ...`. -/
def emitGlyphBackground (o s : Bool) (rl : RL) (outlineV shadowV : List Vertex)
    (tex : Texture) : RL :=
  bif o then AddVertices rl outlineV .D3D11_PRIMITIVE_TOPOLOGY_TRIANGLELIST tex
  else bif s then AddVertices rl shadowV .D3D11_PRIMITIVE_TOPOLOGY_TRIANGLELIST tex
  else rl

/-- The per-character body of DX11 `Font::RenderText`'s inner loop. -/
def charStep (f : FontData) (o s : Bool) (oc : Color) (ot : ℚ) (startX : ℚ) (col : Color)
    (st : (ℚ × ℚ) × RL × Nat) (c : Char) : (ℚ × ℚ) × RL × Nat :=
  let pos := st.1
  let rl := st.2.1
  let numToSkip := st.2.2
  if 0 < numToSkip then (pos, rl, numToSkip - 1)
  else
    let pos := if c = '\n' then (startX, pos.2 + rowHeight f) else pos
    if c < ' ' then (pos, rl, numToSkip)
    else
      match f.charCoords c with
      | none => (pos, rl, numToSkip)
      | some r =>
        let w := (r.tx2 - r.tx1) * f.textureWidth / f.textScale
        let h := (r.ty2 - r.ty1) * f.textureHeight / f.textScale
        let rl :=
          if c ≠ ' ' then
            let shadowColor := ColorFromInts 0 0 0 (((col.val >>> 24) &&& 0xff : Nat) : ℤ)
            AddVertices
              (emitGlyphBackground o s rl (outlineQuad pos w h oc ot r)
                (shadowQuad pos w h shadowColor r) f.fontTextureView)
              (glyphQuad pos w h col r) .D3D11_PRIMITIVE_TOPOLOGY_TRIANGLELIST f.fontTextureView
          else rl
        ((pos.1 + (w - 2 * f.charSpacing), pos.2), rl, numToSkip)

/-- DX11 `Font::RenderText` with the flag tests already evaluated to
Booleans (same flag values as DX9). -/
def RenderTextB (f : FontData) (rl : RL) (pos0 : ℚ × ℚ) (text : List Char) (color : Color)
    (bAlign bRight bCX bCY bOutline bShadow : Bool)
    (outlineColor : Color) (outlineThickness : ℚ) : RL :=
  let segments := PreprocessText text color
  let cleanedText := concatTexts segments
  let pos1 :=
    bif bAlign then
      let size := CalculateTextExtent f cleanedText
      let x := bif bRight then pos0.1 - size.1
               else bif bCX then pos0.1 - (1/2) * size.1 else pos0.1
      let y := bif bCY then pos0.2 - (1/2) * size.2 else pos0.2
      (x, y)
    else pos0
  let pos2 := (pos1.1 - f.charSpacing, pos1.2)
  let startX := pos2.1
  let final := segments.foldl
    (fun st seg =>
      seg.1.foldl (charStep f bOutline bShadow outlineColor outlineThickness startX seg.2) st)
    (pos2, rl, 0)
  final.2.1

/-- DX11 `Font::RenderText(pos, text, color, flags, outlineColor,
outlineThickness)`; the target list (the font's `_renderList`) is passed
explicitly. -/
def RenderText (f : FontData) (rl : RL) (pos : ℚ × ℚ) (text : List Char) (color : Color)
    (flags : Nat) (outlineColor : Color) (outlineThickness : ℚ) : RL :=
  RenderTextB f rl pos text color
    (flags &&& 14 != 0) (flags &&& 2 != 0) (flags &&& 4 != 0) (flags &&& 8 != 0)
    (flags &&& 32 != 0) (flags &&& 16 != 0) outlineColor outlineThickness

/-- DX11 `Renderer::AddText(fontId, text, x, y, color, flags, outlineColor,
outlineThickness)`: `_fonts.find(fontId)` and a throw when the handle is
unknown; nothing is mutated before the throw. -/
def AddText (fonts : List (Nat × FontData)) (rl : RL) (fontId : Nat) (text : List Char)
    (x y : ℚ) (color : Color) (flags : Nat) (outlineColor : Color)
    (outlineThickness : ℚ) : Except String RL :=
  match fonts.lookup fontId with
  | none => .error "AddText(): Font not found!"
  | some f => .ok (RenderText f rl (x, y) text color flags outlineColor outlineThickness)

end DX11

end CRF

namespace CRF

theorem bumpLast_length {Topol Tex : Type} (bs : List (Batch Topol Tex)) (n : Nat) :
    (bumpLast bs n).length = bs.length := by
  induction bs with
  | nil => rfl
  | cons b rest ih =>
    cases rest with
    | nil => rfl
    | cons b2 rest2 => simpa [bumpLast] using ih

theorem bumpLast_ne_nil {Topol Tex : Type} (bs : List (Batch Topol Tex)) (n : Nat)
    (h : bs ≠ []) : bumpLast bs n ≠ [] := by
  intro hc
  have := bumpLast_length bs n
  rw [hc] at this
  cases bs with
  | nil => exact h rfl
  | cons b r => simp at this

theorem bumpLast_getElem?_lt {Topol Tex : Type} (bs : List (Batch Topol Tex)) (n k : Nat)
    (h : k + 1 < bs.length) : (bumpLast bs n)[k]? = bs[k]? := by
  induction bs generalizing k with
  | nil => rfl
  | cons b rest ih =>
    cases rest with
    | nil => simp at h
    | cons b2 rest2 =>
      cases k with
      | zero => simp [bumpLast]
      | succ k =>
        simp only [bumpLast, List.getElem?_cons_succ]
        exact ih k (by simpa using h)

theorem bumpLast_getLast? {Topol Tex : Type} (bs : List (Batch Topol Tex)) (n : Nat) :
    (bumpLast bs n).getLast? = bs.getLast?.map (fun b => ⟨b.count + n, b.topology, b.texture⟩) := by
  induction bs with
  | nil => rfl
  | cons b rest ih =>
    cases rest with
    | nil => rfl
    | cons b2 rest2 =>
      obtain ⟨c, cs, hcc⟩ : ∃ c cs, bumpLast (b2 :: rest2) n = c :: cs := by
        cases hx : bumpLast (b2 :: rest2) n with
        | nil => exact absurd hx (bumpLast_ne_nil _ _ (by simp))
        | cons c cs => exact ⟨c, cs, rfl⟩
      show (b :: bumpLast (b2 :: rest2) n).getLast? = _
      rw [hcc, List.getLast?_cons_cons, ← hcc, ih, List.getLast?_cons_cons]

theorem sumCounts_append {Topol Tex : Type} (bs cs : List (Batch Topol Tex)) :
    sumCounts (bs ++ cs) = sumCounts bs + sumCounts cs := by
  simp [sumCounts]

theorem sumCounts_bumpLast {Topol Tex : Type} (bs : List (Batch Topol Tex)) (n : Nat)
    (h : bs ≠ []) : sumCounts (bumpLast bs n) = sumCounts bs + n := by
  induction bs with
  | nil => exact absurd rfl h
  | cons b rest ih =>
    cases rest with
    | nil => simp [bumpLast, sumCounts]
    | cons b2 rest2 =>
      have := ih (by simp)
      simp only [bumpLast, sumCounts, List.map_cons, List.sum_cons] at this ⊢
      omega

theorem needNewBatch_false_ne_nil {Topol Tex : Type} [DecidableEq Topol] [DecidableEq Tex]
    (bs : List (Batch Topol Tex)) (t : Topol) (tex : Tex)
    (h : needNewBatch bs t tex = false) : bs ≠ [] := by
  intro hnil
  subst hnil
  simp [needNewBatch] at h

theorem needNewBatch_false_key {Topol Tex : Type} [DecidableEq Topol] [DecidableEq Tex]
    (bs : List (Batch Topol Tex)) (t : Topol) (tex : Tex)
    (h : needNewBatch bs t tex = false) :
    ∃ b, bs.getLast? = some b ∧ b.topology = t ∧ b.texture = tex := by
  unfold needNewBatch at h
  cases hbs : bs.getLast? with
  | none => rw [hbs] at h; simp at h
  | some b =>
    rw [hbs] at h
    simp only [Bool.or_eq_false_iff, bne_eq_false_iff_eq] at h
    exact ⟨b, rfl, h.1, h.2⟩

end CRF

namespace CRF

theorem addVerticesCore_vertices {V Topol Tex : Type} [DecidableEq Topol] [DecidableEq Tex]
    (strip : Topol → Bool) (brk : Batch Topol Tex) (l : RenderList V Topol Tex)
    (vs : List V) (t : Topol) (tex : Tex) :
    (addVerticesCore strip brk l vs t tex).vertices = l.vertices ++ vs := rfl

/-- The batch list never shrinks across `AddVertices`. -/
theorem addVerticesCore_batches_length_le {V Topol Tex : Type} [DecidableEq Topol] [DecidableEq Tex]
    (strip : Topol → Bool) (brk : Batch Topol Tex) (l : RenderList V Topol Tex)
    (vs : List V) (t : Topol) (tex : Tex) :
    l.batches.length ≤ (addVerticesCore strip brk l vs t tex).batches.length := by
  unfold addVerticesCore
  dsimp only
  by_cases hn : needNewBatch l.batches t tex = true <;>
    by_cases hs : strip t = true
  all_goals simp [hn, hs, bumpLast_length]
  all_goals omega

/-- After appending a strip, the batch list is strictly longer (the break
batch is appended at the end). -/
theorem addVerticesCore_batches_length_lt {V Topol Tex : Type} [DecidableEq Topol] [DecidableEq Tex]
    (strip : Topol → Bool) (brk : Batch Topol Tex) (l : RenderList V Topol Tex)
    (vs : List V) (t : Topol) (tex : Tex) (h : strip t = true) :
    l.batches.length < (addVerticesCore strip brk l vs t tex).batches.length := by
  unfold addVerticesCore
  dsimp only
  by_cases hn : needNewBatch l.batches t tex = true
  all_goals simp [hn, h, bumpLast_length]
  all_goals omega

/-- `AddVertices` only touches the last batch (and appends); batches other
than the last one are left unchanged. -/
theorem addVerticesCore_getElem?_frozen {V Topol Tex : Type} [DecidableEq Topol] [DecidableEq Tex]
    (strip : Topol → Bool) (brk : Batch Topol Tex) (l : RenderList V Topol Tex)
    (vs : List V) (t : Topol) (tex : Tex) (k : Nat) (hk : k + 2 ≤ l.batches.length) :
    (addVerticesCore strip brk l vs t tex).batches[k]? = l.batches[k]? := by
  unfold addVerticesCore
  dsimp only
  set bs0 := (if needNewBatch l.batches t tex = true then
      l.batches ++ [(⟨0, t, tex⟩ : Batch Topol Tex)] else l.batches) with hbs0
  have hlen : l.batches.length ≤ bs0.length := by
    rw [hbs0]; by_cases hn : needNewBatch l.batches t tex = true
    · rw [if_pos hn]; simp
    · rw [if_neg hn]
  have hb : (bumpLast bs0 vs.length)[k]? = bs0[k]? :=
    bumpLast_getElem?_lt bs0 vs.length k (by omega)
  have hb0 : bs0[k]? = l.batches[k]? := by
    rw [hbs0]
    by_cases hn : needNewBatch l.batches t tex = true
    · rw [if_pos hn]; exact List.getElem?_append_left (by omega)
    · rw [if_neg hn]
  by_cases hs : strip t = true
  · rw [if_pos hs, List.getElem?_append_left (by rw [bumpLast_length]; omega), hb, hb0]
  · rw [if_neg hs, hb, hb0]

theorem addVerticesCore_sumCounts {V Topol Tex : Type} [DecidableEq Topol] [DecidableEq Tex]
    (strip : Topol → Bool) (brk : Batch Topol Tex) (hbrk : brk.count = 0)
    (l : RenderList V Topol Tex) (vs : List V) (t : Topol) (tex : Tex) :
    sumCounts (addVerticesCore strip brk l vs t tex).batches
      = sumCounts l.batches + vs.length := by
  unfold addVerticesCore
  dsimp only
  set bs0 := (if needNewBatch l.batches t tex = true then
      l.batches ++ [(⟨0, t, tex⟩ : Batch Topol Tex)] else l.batches) with hbs0
  have hne : bs0 ≠ [] := by
    rw [hbs0]
    by_cases hn : needNewBatch l.batches t tex = true
    · rw [if_pos hn]; simp
    · rw [if_neg hn]
      exact needNewBatch_false_ne_nil _ _ _ (by simpa using hn)
  have hsum0 : sumCounts bs0 = sumCounts l.batches := by
    rw [hbs0]
    by_cases hn : needNewBatch l.batches t tex = true
    · rw [if_pos hn, sumCounts_append]; simp [sumCounts]
    · rw [if_neg hn]
  have hsb : sumCounts (bumpLast bs0 vs.length) = sumCounts l.batches + vs.length := by
    rw [sumCounts_bumpLast _ _ hne, hsum0]
  by_cases hs : strip t = true
  · rw [if_pos hs, sumCounts_append, hsb]; simp [sumCounts, hbrk]
  · rw [if_neg hs]; exact hsb

end CRF

namespace CRF

/-- The batch list never shrinks across a sequence of `AddVertices` calls. -/
theorem applyCalls_batches_length_le {V Topol Tex : Type} [DecidableEq Topol] [DecidableEq Tex]
    (strip : Topol → Bool) (brk : Batch Topol Tex) :
    ∀ (calls : List (List V × Topol × Tex)) (l : RenderList V Topol Tex),
    l.batches.length ≤ (applyCalls strip brk calls l).batches.length := by
  intro calls
  induction calls with
  | nil => intro l; exact le_refl _
  | cons c rest ih =>
    intro l
    exact le_trans (addVerticesCore_batches_length_le strip brk l c.1 c.2.1 c.2.2)
      (ih (addVerticesCore strip brk l c.1 c.2.1 c.2.2))

/-- A batch that is followed by at least one further batch is frozen: no
sequence of later `AddVertices` calls can change it. -/
theorem applyCalls_getElem?_frozen {V Topol Tex : Type} [DecidableEq Topol] [DecidableEq Tex]
    (strip : Topol → Bool) (brk : Batch Topol Tex) :
    ∀ (calls : List (List V × Topol × Tex)) (l : RenderList V Topol Tex) (k : Nat),
    k + 2 ≤ l.batches.length →
    (applyCalls strip brk calls l).batches[k]? = l.batches[k]? := by
  intro calls
  induction calls with
  | nil => intro l k _; rfl
  | cons c rest ih =>
    intro l k hk
    have h1 := addVerticesCore_getElem?_frozen strip brk l c.1 c.2.1 c.2.2 k hk
    have h2 : k + 2 ≤ (addVerticesCore strip brk l c.1 c.2.1 c.2.2).batches.length :=
      le_trans hk (addVerticesCore_batches_length_le strip brk l c.1 c.2.1 c.2.2)
    calc (applyCalls strip brk (c :: rest) l).batches[k]?
        = (applyCalls strip brk rest (addVerticesCore strip brk l c.1 c.2.1 c.2.2)).batches[k]? := rfl
      _ = (addVerticesCore strip brk l c.1 c.2.1 c.2.2).batches[k]? := ih _ k h2
      _ = l.batches[k]? := h1

/-- Coalescing: on a list whose single batch already has key `(t, tex)`,
a run of same-key, non-strip `AddVertices` calls keeps exactly one batch and
accumulates the vertex counts. -/
theorem applyCalls_coalesce {V Topol Tex : Type} [DecidableEq Topol] [DecidableEq Tex]
    (strip : Topol → Bool) (brk : Batch Topol Tex) (t : Topol) (tex : Tex)
    (hstrip : strip t = false) :
    ∀ (calls : List (List V)) (l : RenderList V Topol Tex) (c : Nat),
    l.batches = [⟨c, t, tex⟩] →
    (applyCalls strip brk (calls.map fun vs => (vs, t, tex)) l).batches
      = [⟨c + (calls.map List.length).sum, t, tex⟩] := by
  intro calls
  induction calls with
  | nil => intro l c hl; simpa [applyCalls] using hl
  | cons vs rest ih =>
    intro l c hl
    have hstep : (addVerticesCore strip brk l vs t tex).batches = [⟨c + vs.length, t, tex⟩] := by
      unfold addVerticesCore
      dsimp only
      have hn : needNewBatch l.batches t tex = false := by
        rw [hl]; simp [needNewBatch]
      rw [hn]
      simp only [Bool.false_eq_true, if_false, ite_false]
      rw [hl, hstrip]
      simp [bumpLast]
    have : applyCalls strip brk ((vs :: rest).map fun vs => (vs, t, tex)) l
        = applyCalls strip brk (rest.map fun vs => (vs, t, tex))
            (addVerticesCore strip brk l vs t tex) := rfl
    rw [this, ih _ _ hstep]
    simp [Nat.add_assoc]

/-- The RenderList invariant: total batch count = number of stored vertices. -/
theorem applyOps_sumCounts {V Topol Tex : Type} [DecidableEq Topol] [DecidableEq Tex]
    (strip : Topol → Bool) (brk : Batch Topol Tex) (hbrk : brk.count = 0) :
    ∀ (ops : List (RLOp V Topol Tex)) (l : RenderList V Topol Tex),
    sumCounts l.batches = l.vertices.length →
    sumCounts (applyOps strip brk ops l).batches = (applyOps strip brk ops l).vertices.length := by
  intro ops
  induction ops with
  | nil => intro l h; exact h
  | cons op rest ih =>
    intro l h
    have hstep : sumCounts (applyOp strip brk l op).batches = (applyOp strip brk l op).vertices.length := by
      cases op with
      | add vs t tex =>
        show sumCounts (addVerticesCore strip brk l vs t tex).batches
            = (addVerticesCore strip brk l vs t tex).vertices.length
        rw [addVerticesCore_sumCounts strip brk hbrk, addVerticesCore_vertices]
        simp [h]
      | clear => rfl
    exact ih _ hstep

/-- Prefix sums of batch counts index into the vertex range: for every `i`,
`offset(i) + count(i) ≤ sumCounts`. -/
theorem sumCounts_take_getElem_le {Topol Tex : Type} :
    ∀ (bs : List (Batch Topol Tex)) (i : Nat),
    sumCounts (bs.take i) + ((bs[i]?).map Batch.count).getD 0 ≤ sumCounts bs := by
  intro bs
  induction bs with
  | nil => intro i; simp [sumCounts]
  | cons b rest ih =>
    intro i
    cases i with
    | zero => simp [sumCounts]
    | succ i =>
      have := ih i
      simp only [List.take_succ_cons, List.getElem?_cons_succ, sumCounts, List.map_cons,
        List.sum_cons] at this ⊢
      omega

end CRF

namespace CRF

/-- After a strip `AddVertices`, the next-to-last batch is the strip batch:
it carries the call's `(topology, texture)` key (the last batch is the break
batch). -/
theorem addVerticesCore_strip_key {V Topol Tex : Type} [DecidableEq Topol] [DecidableEq Tex]
    (strip : Topol → Bool) (brk : Batch Topol Tex) (l : RenderList V Topol Tex)
    (vs : List V) (t : Topol) (tex : Tex) (h : strip t = true) :
    2 ≤ (addVerticesCore strip brk l vs t tex).batches.length ∧
    (((addVerticesCore strip brk l vs t tex).batches[(addVerticesCore strip brk l vs t tex).batches.length - 2]?).map
      (fun b => (b.topology, b.texture))) = some (t, tex) := by
  unfold addVerticesCore
  dsimp only
  set bs0 := (if needNewBatch l.batches t tex = true then
      l.batches ++ [(⟨0, t, tex⟩ : Batch Topol Tex)] else l.batches) with hbs0
  have hlen0 : 1 ≤ bs0.length := by
    rw [hbs0]
    by_cases hn : needNewBatch l.batches t tex = true
    · rw [if_pos hn]; simp
    · rw [if_neg hn]
      have hne := needNewBatch_false_ne_nil _ _ _ (by simpa using hn)
      cases hb : l.batches with
      | nil => exact absurd hb hne
      | cons x xs => simp [hb]
  rw [if_pos h]
  constructor
  · simp [bumpLast_length]; omega
  · have hidx : (bumpLast bs0 vs.length ++ [brk]).length - 2 = bs0.length - 1 := by
      simp [bumpLast_length]
    rw [hidx, List.getElem?_append_left (by rw [bumpLast_length]; omega)]
    have hgl : (bumpLast bs0 vs.length)[bs0.length - 1]? = (bumpLast bs0 vs.length).getLast? := by
      rw [List.getLast?_eq_getElem?, bumpLast_length]
    rw [hgl, bumpLast_getLast?]
    by_cases hn : needNewBatch l.batches t tex = true
    · rw [hbs0, if_pos hn, List.getLast?_concat]
      rfl
    · obtain ⟨b, hb, hbt, hbx⟩ := needNewBatch_false_key _ _ _ (by simpa using hn)
      rw [hbs0, if_neg hn, hb]
      simp [hbt, hbx]

/-- A nonempty run of same-key non-strip calls on a fresh list yields one
batch holding the total count. -/
theorem applyCalls_coalesce_all {V Topol Tex : Type} [DecidableEq Topol] [DecidableEq Tex]
    (strip : Topol → Bool) (brk : Batch Topol Tex) (t : Topol) (tex : Tex)
    (hstrip : strip t = false) (calls : List (List V)) (hne : calls ≠ []) :
    (applyCalls strip brk (calls.map fun vs => (vs, t, tex)) (emptyRL V Topol Tex)).batches
      = [⟨(calls.map List.length).sum, t, tex⟩] := by
  cases calls with
  | nil => exact absurd rfl hne
  | cons vs rest =>
    have hstep : (addVerticesCore strip brk (emptyRL V Topol Tex) vs t tex).batches
        = [⟨vs.length, t, tex⟩] := by
      simp [addVerticesCore, emptyRL, needNewBatch, bumpLast, hstrip]
    have hrw : applyCalls strip brk ((vs :: rest).map fun vs => (vs, t, tex)) (emptyRL V Topol Tex)
        = applyCalls strip brk (rest.map fun vs => (vs, t, tex))
            (addVerticesCore strip brk (emptyRL V Topol Tex) vs t tex) := rfl
    rw [hrw, applyCalls_coalesce strip brk t tex hstrip rest _ _ hstep]
    simp [Nat.add_comm]

end CRF

namespace CRF

/-- C1, counterexample: two `AddVertices` calls with the identical pair
`(D3DPT_LINESTRIP, nullptr)` on a fresh DX9 RenderList produce four batches
(data batch + break batch, twice), not one: the break batch appended after a
strip prevents coalescing, so the claim as stated is false. -/
theorem claim_C1_counterexample :
    ((DX9.AddVertices
        (DX9.AddVertices (emptyRL DX9.Vertex DX9.TopologyType DX9.Texture)
          [(⟨(0, 0, 0, 1), ⟨0xFF000000⟩, (0, 0)⟩ : DX9.Vertex)] .D3DPT_LINESTRIP none)
        [(⟨(0, 0, 0, 1), ⟨0xFF000000⟩, (0, 0)⟩ : DX9.Vertex)] .D3DPT_LINESTRIP none).batches.length = 4)
  ∧ ¬ ((DX9.AddVertices
        (DX9.AddVertices (emptyRL DX9.Vertex DX9.TopologyType DX9.Texture)
          [(⟨(0, 0, 0, 1), ⟨0xFF000000⟩, (0, 0)⟩ : DX9.Vertex)] .D3DPT_LINESTRIP none)
        [(⟨(0, 0, 0, 1), ⟨0xFF000000⟩, (0, 0)⟩ : DX9.Vertex)] .D3DPT_LINESTRIP none).batches.length = 1) := by
  constructor
  · rfl
  · decide

/-- C1, amended: every nonempty sequence of `AddVertices` calls on a fresh
RenderList that all use the same `(topology, texture)` pair with a non-strip
topology yields exactly one batch whose count is the sum of the appended
vertex counts (in both the DX9 and the DX11 backend). -/
theorem claim_C1_amended :
    (∀ (calls : List (List DX9.Vertex)) (t : DX9.TopologyType) (tex : DX9.Texture),
        DX9.isStripTopology t = false → calls ≠ [] →
        (applyCalls DX9.isStripTopology DX9.breakBatch (calls.map fun vs => (vs, t, tex))
            (emptyRL DX9.Vertex DX9.TopologyType DX9.Texture)).batches
          = [⟨(calls.map List.length).sum, t, tex⟩])
  ∧ (∀ (calls : List (List DX11.Vertex)) (t : DX11.TopologyType) (tex : DX11.Texture),
        DX11.isStripTopology t = false → calls ≠ [] →
        (applyCalls DX11.isStripTopology DX11.breakBatch (calls.map fun vs => (vs, t, tex))
            (emptyRL DX11.Vertex DX11.TopologyType DX11.Texture)).batches
          = [⟨(calls.map List.length).sum, t, tex⟩]) :=
  ⟨fun calls t tex h hne => applyCalls_coalesce_all _ _ t tex h calls hne,
   fun calls t tex h hne => applyCalls_coalesce_all _ _ t tex h calls hne⟩

/-- C1, witness: three triangle-list vertices over two calls coalesce into a
single batch of count 3. -/
theorem claim_C1_witness :
    (applyCalls DX9.isStripTopology DX9.breakBatch
        ([[(⟨(0, 0, 0, 1), ⟨0xFF000000⟩, (0, 0)⟩ : DX9.Vertex)],
          [(⟨(0, 0, 0, 1), ⟨0xFF000000⟩, (0, 0)⟩ : DX9.Vertex),
           (⟨(0, 0, 0, 1), ⟨0xFF000000⟩, (0, 0)⟩ : DX9.Vertex)]].map
          fun vs => (vs, DX9.TopologyType.D3DPT_TRIANGLELIST, (none : DX9.Texture)))
        (emptyRL DX9.Vertex DX9.TopologyType DX9.Texture)).batches
      = [⟨3, .D3DPT_TRIANGLELIST, none⟩]
  ∧ (applyCalls DX11.isStripTopology DX11.breakBatch
        ([[(⟨(0, 0), ⟨0xFF000000⟩, (0, 0)⟩ : DX11.Vertex)],
          [(⟨(0, 0), ⟨0xFF000000⟩, (0, 0)⟩ : DX11.Vertex),
           (⟨(0, 0), ⟨0xFF000000⟩, (0, 0)⟩ : DX11.Vertex)]].map
          fun vs => (vs, DX11.TopologyType.D3D11_PRIMITIVE_TOPOLOGY_TRIANGLELIST, (none : DX11.Texture)))
        (emptyRL DX11.Vertex DX11.TopologyType DX11.Texture)).batches
      = [⟨3, .D3D11_PRIMITIVE_TOPOLOGY_TRIANGLELIST, none⟩] :=
  ⟨claim_C1_amended.1 _ _ _ (by decide) (by decide),
   claim_C1_amended.2 _ _ _ (by decide) (by decide)⟩

/-- C2: after any strip-topology `AddVertices`, the strip batch sits
immediately before the appended break batch (index `length - 2`), carries the
call's `(topology, texture)` key, and no sequence of later `AddVertices`
calls — of any topology and texture, including the identical pair — ever
changes it: its count is final. -/
theorem claim_C2 :
    (∀ (l : DX9.RL) (vs : List DX9.Vertex) (t : DX9.TopologyType) (tex : DX9.Texture),
      DX9.isStripTopology t = true →
      2 ≤ (DX9.AddVertices l vs t tex).batches.length ∧
      (((DX9.AddVertices l vs t tex).batches[(DX9.AddVertices l vs t tex).batches.length - 2]?).map
        (fun b => (b.topology, b.texture))) = some (t, tex) ∧
      ∀ (calls : List (List DX9.Vertex × DX9.TopologyType × DX9.Texture)),
        (applyCalls DX9.isStripTopology DX9.breakBatch calls
            (DX9.AddVertices l vs t tex)).batches[(DX9.AddVertices l vs t tex).batches.length - 2]?
          = (DX9.AddVertices l vs t tex).batches[(DX9.AddVertices l vs t tex).batches.length - 2]?)
  ∧ (∀ (l : DX11.RL) (vs : List DX11.Vertex) (t : DX11.TopologyType) (tex : DX11.Texture),
      DX11.isStripTopology t = true →
      2 ≤ (DX11.AddVertices l vs t tex).batches.length ∧
      (((DX11.AddVertices l vs t tex).batches[(DX11.AddVertices l vs t tex).batches.length - 2]?).map
        (fun b => (b.topology, b.texture))) = some (t, tex) ∧
      ∀ (calls : List (List DX11.Vertex × DX11.TopologyType × DX11.Texture)),
        (applyCalls DX11.isStripTopology DX11.breakBatch calls
            (DX11.AddVertices l vs t tex)).batches[(DX11.AddVertices l vs t tex).batches.length - 2]?
          = (DX11.AddVertices l vs t tex).batches[(DX11.AddVertices l vs t tex).batches.length - 2]?) := by
  constructor
  · intro l vs t tex h
    have hk := addVerticesCore_strip_key DX9.isStripTopology DX9.breakBatch l vs t tex h
    have h2 : 2 ≤ (DX9.AddVertices l vs t tex).batches.length := hk.1
    exact ⟨h2, hk.2, fun calls =>
      applyCalls_getElem?_frozen DX9.isStripTopology DX9.breakBatch calls _ _ (by omega)⟩
  · intro l vs t tex h
    have hk := addVerticesCore_strip_key DX11.isStripTopology DX11.breakBatch l vs t tex h
    have h2 : 2 ≤ (DX11.AddVertices l vs t tex).batches.length := hk.1
    exact ⟨h2, hk.2, fun calls =>
      applyCalls_getElem?_frozen DX11.isStripTopology DX11.breakBatch calls _ _ (by omega)⟩

/-- C2, witness: a line-strip call followed by an identical line-strip call;
the strip batch (count 2, key `(D3DPT_LINESTRIP, nullptr)`) is unchanged. -/
theorem claim_C2_witness :
    2 ≤ (DX9.AddVertices (emptyRL DX9.Vertex DX9.TopologyType DX9.Texture)
        [(⟨(0, 0, 0, 1), ⟨0xFF000000⟩, (0, 0)⟩ : DX9.Vertex),
         (⟨(1, 0, 0, 1), ⟨0xFF000000⟩, (0, 0)⟩ : DX9.Vertex)] .D3DPT_LINESTRIP none).batches.length
  ∧ (applyCalls DX9.isStripTopology DX9.breakBatch
        [([(⟨(0, 0, 0, 1), ⟨0xFF000000⟩, (0, 0)⟩ : DX9.Vertex)], .D3DPT_LINESTRIP, none)]
        (DX9.AddVertices (emptyRL DX9.Vertex DX9.TopologyType DX9.Texture)
          [(⟨(0, 0, 0, 1), ⟨0xFF000000⟩, (0, 0)⟩ : DX9.Vertex),
           (⟨(1, 0, 0, 1), ⟨0xFF000000⟩, (0, 0)⟩ : DX9.Vertex)] .D3DPT_LINESTRIP none)).batches[(DX9.AddVertices (emptyRL DX9.Vertex DX9.TopologyType DX9.Texture)
          [(⟨(0, 0, 0, 1), ⟨0xFF000000⟩, (0, 0)⟩ : DX9.Vertex),
           (⟨(1, 0, 0, 1), ⟨0xFF000000⟩, (0, 0)⟩ : DX9.Vertex)] .D3DPT_LINESTRIP none).batches.length - 2]?
      = (DX9.AddVertices (emptyRL DX9.Vertex DX9.TopologyType DX9.Texture)
          [(⟨(0, 0, 0, 1), ⟨0xFF000000⟩, (0, 0)⟩ : DX9.Vertex),
           (⟨(1, 0, 0, 1), ⟨0xFF000000⟩, (0, 0)⟩ : DX9.Vertex)] .D3DPT_LINESTRIP none).batches[(DX9.AddVertices (emptyRL DX9.Vertex DX9.TopologyType DX9.Texture)
          [(⟨(0, 0, 0, 1), ⟨0xFF000000⟩, (0, 0)⟩ : DX9.Vertex),
           (⟨(1, 0, 0, 1), ⟨0xFF000000⟩, (0, 0)⟩ : DX9.Vertex)] .D3DPT_LINESTRIP none).batches.length - 2]? :=
  ⟨(claim_C2.1 _ _ _ _ (by decide)).1, (claim_C2.1 _ _ _ _ (by decide)).2.2 _⟩

/-- C3: for every sequence of `AddVertices`/`Clear` calls from a fresh
RenderList, the sum of the batch counts equals the number of stored vertices,
and every batch's prefix-sum offset plus its count stays within the vertex
sequence — the batches partition and index the vertices (both backends). -/
theorem claim_C3 :
    (∀ (ops : List (RLOp DX9.Vertex DX9.TopologyType DX9.Texture)),
      sumCounts (applyOps DX9.isStripTopology DX9.breakBatch ops
          (emptyRL DX9.Vertex DX9.TopologyType DX9.Texture)).batches
        = (applyOps DX9.isStripTopology DX9.breakBatch ops
          (emptyRL DX9.Vertex DX9.TopologyType DX9.Texture)).vertices.length
      ∧ ∀ i, sumCounts ((applyOps DX9.isStripTopology DX9.breakBatch ops
              (emptyRL DX9.Vertex DX9.TopologyType DX9.Texture)).batches.take i)
            + (((applyOps DX9.isStripTopology DX9.breakBatch ops
              (emptyRL DX9.Vertex DX9.TopologyType DX9.Texture)).batches[i]?).map Batch.count).getD 0
          ≤ (applyOps DX9.isStripTopology DX9.breakBatch ops
              (emptyRL DX9.Vertex DX9.TopologyType DX9.Texture)).vertices.length)
  ∧ (∀ (ops : List (RLOp DX11.Vertex DX11.TopologyType DX11.Texture)),
      sumCounts (applyOps DX11.isStripTopology DX11.breakBatch ops
          (emptyRL DX11.Vertex DX11.TopologyType DX11.Texture)).batches
        = (applyOps DX11.isStripTopology DX11.breakBatch ops
          (emptyRL DX11.Vertex DX11.TopologyType DX11.Texture)).vertices.length
      ∧ ∀ i, sumCounts ((applyOps DX11.isStripTopology DX11.breakBatch ops
              (emptyRL DX11.Vertex DX11.TopologyType DX11.Texture)).batches.take i)
            + (((applyOps DX11.isStripTopology DX11.breakBatch ops
              (emptyRL DX11.Vertex DX11.TopologyType DX11.Texture)).batches[i]?).map Batch.count).getD 0
          ≤ (applyOps DX11.isStripTopology DX11.breakBatch ops
              (emptyRL DX11.Vertex DX11.TopologyType DX11.Texture)).vertices.length) := by
  constructor
  · intro ops
    have h1 := applyOps_sumCounts DX9.isStripTopology DX9.breakBatch rfl ops
      (emptyRL DX9.Vertex DX9.TopologyType DX9.Texture) rfl
    exact ⟨h1, fun i => by rw [← h1]; exact sumCounts_take_getElem_le _ i⟩
  · intro ops
    have h1 := applyOps_sumCounts DX11.isStripTopology DX11.breakBatch rfl ops
      (emptyRL DX11.Vertex DX11.TopologyType DX11.Texture) rfl
    exact ⟨h1, fun i => by rw [← h1]; exact sumCounts_take_getElem_le _ i⟩

/-- C6: DX9 `Renderer::AddLine` with `v1 == v2` is neither rejected nor
special-cased: whatever value `sqrtf` returns for 0, the call appends its
four-vertex triangle-strip quad (built from a division by that length) and
grows the batch list.  In IEEE float arithmetic the division `0/0` makes
these vertices NaN. -/
theorem claim_C6 :
    ∀ (sq : ℚ → ℚ) (rl : DX9.RL) (p : ℚ × ℚ) (color : Color) (thickness : ℚ),
    (DX9.AddLine sq rl p p color thickness).vertices.length = rl.vertices.length + 4 ∧
    rl.batches.length < (DX9.AddLine sq rl p p color thickness).batches.length := by
  intro sq rl p color thickness
  constructor
  · show (DX9.AddVertices rl _ .D3DPT_TRIANGLESTRIP none).vertices.length = _
    rw [DX9.AddVertices, addVerticesCore_vertices]
    simp
  · exact addVerticesCore_batches_length_lt _ _ _ _ _ _ rfl

end CRF

namespace CRF


theorem dx9_RenderBatches_spec :
    ∀ (bs : List (Batch DX9.TopologyType DX9.Texture)) (pos : Nat),
    (∀ b ∈ bs, DX9.GetTopologyOrder b.topology = 0 → b.count = 0) →
    DX9.RenderBatches bs pos = (DX9.withOffsets bs pos).filterMap (fun p =>
      if p.1.count ≠ 0 ∧ 0 < DX9.GetTopologyOrder p.1.topology then
        some ⟨p.1.topology, p.1.texture, p.2,
              if DX9.IsTopologyList p.1.topology then p.1.count / DX9.GetTopologyOrder p.1.topology
              else p.1.count - (DX9.GetTopologyOrder p.1.topology - 1)⟩
      else none) := by
  intro bs
  induction bs with
  | nil => intro pos h; rfl
  | cons b rest ih =>
    intro pos h
    have hrest : ∀ x ∈ rest, DX9.GetTopologyOrder x.topology = 0 → x.count = 0 := by
      intro x hx; exact h x (by simp [hx])
    by_cases hd : b.count ≠ 0 ∧ 0 < DX9.GetTopologyOrder b.topology
    · rw [DX9.RenderBatches, DX9.withOffsets]
      simp only [List.filterMap_cons, if_pos hd]
      rw [ih (pos + b.count) hrest]
    · rw [DX9.RenderBatches, DX9.withOffsets]
      simp only [List.filterMap_cons, if_neg hd]
      have hc : b.count = 0 := by
        rcases Decidable.not_and_iff_or_not.mp hd with h1 | h1
        · simpa using h1
        · exact h b (by simp) (by omega)
      rw [hc]
      simp only [Nat.add_zero]
      exact ih pos hrest

theorem dx11_RenderBatches_length :
    ∀ (bs : List (Batch DX11.TopologyType DX11.Texture)) (pos : Nat),
    (DX11.RenderBatches bs pos).length = bs.length := by
  intro bs
  induction bs with
  | nil => intro pos; rfl
  | cons b rest ih => intro pos; simp [DX11.RenderBatches, ih]

theorem dx11_RenderBatches_getElem? :
    ∀ (bs : List (Batch DX11.TopologyType DX11.Texture)) (pos i : Nat),
    (DX11.RenderBatches bs pos)[i]?
      = (bs[i]?).map fun b => ⟨b.topology, b.texture, b.count, pos + sumCounts (bs.take i)⟩ := by
  intro bs
  induction bs with
  | nil => intro pos i; rfl
  | cons b rest ih =>
    intro pos i
    cases i with
    | zero => simp [DX11.RenderBatches, sumCounts]
    | succ i =>
      rw [DX11.RenderBatches]
      simp only [List.getElem?_cons_succ, List.take_succ_cons]
      rw [ih (pos + b.count) i]
      have hfe : (fun (b2 : Batch DX11.TopologyType DX11.Texture) =>
            (⟨b2.topology, b2.texture, b2.count, pos + b.count + sumCounts (rest.take i)⟩ : DX11.Draw))
          = fun b2 => ⟨b2.topology, b2.texture, b2.count, pos + sumCounts (b :: rest.take i)⟩ := by
        funext b2
        have harith : pos + b.count + sumCounts (rest.take i)
            = pos + sumCounts (b :: rest.take i) := by
          simp [sumCounts]; omega
        rw [harith]
      rw [hfe]

end CRF

namespace CRF

/-- C7, counterexample: a DX9 RenderList holding one triangle-strip call has
two batches (the strip batch and the zero-count break batch) but `Render`
issues only one draw call — the break batch is skipped, so "exactly one draw
call per batch" is false for DX9. -/
theorem claim_C7_counterexample :
    (DX9.Render (DX9.AddVertices (emptyRL DX9.Vertex DX9.TopologyType DX9.Texture)
        [(⟨(0, 0, 0, 1), ⟨0xFF000000⟩, (0, 0)⟩ : DX9.Vertex),
         (⟨(0, 1, 0, 1), ⟨0xFF000000⟩, (0, 0)⟩ : DX9.Vertex),
         (⟨(1, 0, 0, 1), ⟨0xFF000000⟩, (0, 0)⟩ : DX9.Vertex),
         (⟨(1, 1, 0, 1), ⟨0xFF000000⟩, (0, 0)⟩ : DX9.Vertex)] .D3DPT_TRIANGLESTRIP none)).length = 1
  ∧ (DX9.AddVertices (emptyRL DX9.Vertex DX9.TopologyType DX9.Texture)
        [(⟨(0, 0, 0, 1), ⟨0xFF000000⟩, (0, 0)⟩ : DX9.Vertex),
         (⟨(0, 1, 0, 1), ⟨0xFF000000⟩, (0, 0)⟩ : DX9.Vertex),
         (⟨(1, 0, 0, 1), ⟨0xFF000000⟩, (0, 0)⟩ : DX9.Vertex),
         (⟨(1, 1, 0, 1), ⟨0xFF000000⟩, (0, 0)⟩ : DX9.Vertex)] .D3DPT_TRIANGLESTRIP none).batches.length = 2 := by
  constructor
  · rfl
  · rfl

/-- C7, amended: DX11 `Render` issues exactly one draw call per batch, in
batch order, each with the batch's topology, bound texture and count,
starting at the prefix sum of the preceding batch counts.  DX9 `Render`
skips batches whose count is zero or whose topology has no order (the strip
break batches) and issues exactly one draw call per remaining batch, in batch
order, at the prefix-sum offset, with primitive count `count / order` for
list topologies and `count - (order - 1)` for strips; the offsets match the
prefix sums whenever every skipped batch has count 0 (as holds for all break
batches the code creates). -/
theorem claim_C7_amended :
    (∀ (l : DX11.RL),
      (DX11.Render l).length = l.batches.length ∧
      ∀ (i : Nat), (DX11.Render l)[i]?
        = (l.batches[i]?).map fun b =>
            (⟨b.topology, b.texture, b.count, sumCounts (l.batches.take i)⟩ : DX11.Draw))
  ∧ (∀ (l : DX9.RL),
      (∀ b ∈ l.batches, DX9.GetTopologyOrder b.topology = 0 → b.count = 0) →
      DX9.Render l = DX9.drawsSpec l.batches) := by
  constructor
  · intro l
    refine ⟨dx11_RenderBatches_length l.batches 0, fun i => ?_⟩
    have h := dx11_RenderBatches_getElem? l.batches 0 i
    simpa using h
  · intro l h
    exact dx9_RenderBatches_spec l.batches 0 h

/-- C7, witness: the strip list from the counterexample satisfies the DX9
hypothesis (its only skipped batch has count 0), and the DX11 equalities hold
on a two-batch list. -/
theorem claim_C7_witness :
    (DX11.Render (DX11.AddVertices (emptyRL DX11.Vertex DX11.TopologyType DX11.Texture)
        [(⟨(0, 0), ⟨0xFF000000⟩, (0, 0)⟩ : DX11.Vertex)] .D3D11_PRIMITIVE_TOPOLOGY_LINESTRIP none)).length
      = (DX11.AddVertices (emptyRL DX11.Vertex DX11.TopologyType DX11.Texture)
        [(⟨(0, 0), ⟨0xFF000000⟩, (0, 0)⟩ : DX11.Vertex)] .D3D11_PRIMITIVE_TOPOLOGY_LINESTRIP none).batches.length
  ∧ DX9.Render (DX9.AddVertices (emptyRL DX9.Vertex DX9.TopologyType DX9.Texture)
        [(⟨(0, 0, 0, 1), ⟨0xFF000000⟩, (0, 0)⟩ : DX9.Vertex),
         (⟨(0, 1, 0, 1), ⟨0xFF000000⟩, (0, 0)⟩ : DX9.Vertex),
         (⟨(1, 0, 0, 1), ⟨0xFF000000⟩, (0, 0)⟩ : DX9.Vertex),
         (⟨(1, 1, 0, 1), ⟨0xFF000000⟩, (0, 0)⟩ : DX9.Vertex)] .D3DPT_TRIANGLESTRIP none)
      = DX9.drawsSpec (DX9.AddVertices (emptyRL DX9.Vertex DX9.TopologyType DX9.Texture)
        [(⟨(0, 0, 0, 1), ⟨0xFF000000⟩, (0, 0)⟩ : DX9.Vertex),
         (⟨(0, 1, 0, 1), ⟨0xFF000000⟩, (0, 0)⟩ : DX9.Vertex),
         (⟨(1, 0, 0, 1), ⟨0xFF000000⟩, (0, 0)⟩ : DX9.Vertex),
         (⟨(1, 1, 0, 1), ⟨0xFF000000⟩, (0, 0)⟩ : DX9.Vertex)] .D3DPT_TRIANGLESTRIP none).batches :=
  ⟨(claim_C7_amended.1 _).1, claim_C7_amended.2 _ (by decide)⟩

end CRF

namespace CRF

/-- C8: `AddText` with an unknown font handle fails immediately with the
exception text of the source and returns no modified render list — the
lookup precedes every mutation, so the renderer and the target list are
unchanged (both backends). -/
theorem claim_C8 :
    (∀ (fonts : List (Nat × DX9.FontData)) (rl : DX9.RL) (fontId : Nat) (text : List Char)
        (pos : ℚ × ℚ) (color : Color) (flags : Nat) (oc : Color) (ot : ℚ),
      fonts.lookup fontId = none →
      DX9.AddText fonts rl fontId text pos color flags oc ot
        = Except.error "AddText(): Font not found!")
  ∧ (∀ (fonts : List (Nat × DX11.FontData)) (rl : DX11.RL) (fontId : Nat) (text : List Char)
        (x y : ℚ) (color : Color) (flags : Nat) (oc : Color) (ot : ℚ),
      fonts.lookup fontId = none →
      DX11.AddText fonts rl fontId text x y color flags oc ot
        = Except.error "AddText(): Font not found!") := by
  constructor
  · intro fonts rl fontId text pos color flags oc ot h
    unfold DX9.AddText
    rw [h]
  · intro fonts rl fontId text x y color flags oc ot h
    unfold DX11.AddText
    rw [h]

/-- C8, witness: an empty font registry rejects handle 1. -/
theorem claim_C8_witness :
    DX9.AddText [] (emptyRL DX9.Vertex DX9.TopologyType DX9.Texture) 1 [] (0, 0)
        ⟨0xFF000000⟩ 0 ⟨0xFF000000⟩ 2 = Except.error "AddText(): Font not found!"
  ∧ DX11.AddText [] (emptyRL DX11.Vertex DX11.TopologyType DX11.Texture) 1 [] 0 0
        ⟨0xFF000000⟩ 0 ⟨0xFF000000⟩ 2 = Except.error "AddText(): Font not found!" :=
  ⟨claim_C8.1 [] _ 1 [] (0, 0) _ 0 _ 2 rfl, claim_C8.2 [] _ 1 [] 0 0 _ 0 _ 2 rfl⟩

/-- With the outline flag true, the per-character step does not depend on the
shadow flag (DX9). -/
theorem dx9_charStep_outline (f : DX9.FontData) (s : Bool) (oc : Color) (ot : ℚ)
    (sx : ℚ) (col : Color) :
    DX9.charStep f true s oc ot sx col = DX9.charStep f true false oc ot sx col := by
  funext st c
  rfl

/-- With the outline flag true, `RenderTextB` does not depend on the shadow
flag (DX9). -/
theorem dx9_RenderTextB_shadow_irrel (f : DX9.FontData) (rl : DX9.RL) (pos : ℚ × ℚ)
    (text : List Char) (color : Color) (al r cx cy : Bool) (s s' : Bool)
    (oc : Color) (ot : ℚ) :
    DX9.RenderTextB f rl pos text color al r cx cy true s oc ot
      = DX9.RenderTextB f rl pos text color al r cx cy true s' oc ot := by
  unfold DX9.RenderTextB
  simp only [dx9_charStep_outline]

/-- With the outline flag true, the per-character step does not depend on the
shadow flag (DX11). -/
theorem dx11_charStep_outline (f : DX11.FontData) (s : Bool) (oc : Color) (ot : ℚ)
    (sx : ℚ) (col : Color) :
    DX11.charStep f true s oc ot sx col = DX11.charStep f true false oc ot sx col := by
  funext st c
  rfl

/-- With the outline flag true, `RenderTextB` does not depend on the shadow
flag (DX11). -/
theorem dx11_RenderTextB_shadow_irrel (f : DX11.FontData) (rl : DX11.RL) (pos : ℚ × ℚ)
    (text : List Char) (color : Color) (al r cx cy : Bool) (s s' : Bool)
    (oc : Color) (ot : ℚ) :
    DX11.RenderTextB f rl pos text color al r cx cy true s oc ot
      = DX11.RenderTextB f rl pos text color al r cx cy true s' oc ot := by
  unfold DX11.RenderTextB
  simp only [dx11_charStep_outline]

/-- Or-ing in a bit disjoint from a mask does not change the masked value. -/
theorem or_and_masked (x y m : Nat) (h : y &&& m = 0) : (x ||| y) &&& m = x &&& m := by
  apply Nat.eq_of_testBit_eq
  intro i
  have hy : (y.testBit i && m.testBit i) = false := by
    have h2 : (y &&& m).testBit i = (0 : Nat).testBit i := by rw [h]
    rwa [Nat.testBit_and, Nat.zero_testBit] at h2
  rw [Nat.testBit_and, Nat.testBit_or, Nat.testBit_and]
  cases hx : Nat.testBit x i <;> cases hm : Nat.testBit m i <;> simp_all

/-- C9: when the outline flag (bit 32) is set, `RenderText` behaves
identically whether or not the drop-shadow flag (bit 16) is set — only the
outline quad is emitted behind each glyph — and the background dispatch
emits the shadow quad exactly when the shadow flag is set and the outline
flag is not (both backends). -/
theorem claim_C9 (flags : Nat) (h : flags &&& 32 ≠ 0) :
    (∀ (f : DX9.FontData) (rl : DX9.RL) (pos : ℚ × ℚ) (text : List Char) (color : Color)
        (oc : Color) (ot : ℚ),
      DX9.RenderText f rl pos text color flags oc ot
        = DX9.RenderText f rl pos text color (flags ||| 16) oc ot)
  ∧ (∀ (f : DX11.FontData) (rl : DX11.RL) (pos : ℚ × ℚ) (text : List Char) (color : Color)
        (oc : Color) (ot : ℚ),
      DX11.RenderText f rl pos text color flags oc ot
        = DX11.RenderText f rl pos text color (flags ||| 16) oc ot)
  ∧ (∀ (s : Bool) (rl : DX9.RL) (ov sv : List DX9.Vertex) (tex : DX9.Texture),
      DX9.emitGlyphBackground true s rl ov sv tex
        = DX9.AddVertices rl ov .D3DPT_TRIANGLELIST tex)
  ∧ (∀ (rl : DX9.RL) (ov sv : List DX9.Vertex) (tex : DX9.Texture),
      DX9.emitGlyphBackground false true rl ov sv tex
        = DX9.AddVertices rl sv .D3DPT_TRIANGLELIST tex
      ∧ DX9.emitGlyphBackground false false rl ov sv tex = rl)
  ∧ (∀ (s : Bool) (rl : DX11.RL) (ov sv : List DX11.Vertex) (tex : DX11.Texture),
      DX11.emitGlyphBackground true s rl ov sv tex
        = DX11.AddVertices rl ov .D3D11_PRIMITIVE_TOPOLOGY_TRIANGLELIST tex)
  ∧ (∀ (rl : DX11.RL) (ov sv : List DX11.Vertex) (tex : DX11.Texture),
      DX11.emitGlyphBackground false true rl ov sv tex
        = DX11.AddVertices rl sv .D3D11_PRIMITIVE_TOPOLOGY_TRIANGLELIST tex
      ∧ DX11.emitGlyphBackground false false rl ov sv tex = rl) := by
  refine ⟨?_, ?_, fun s rl ov sv tex => rfl, fun rl ov sv tex => ⟨rfl, rfl⟩,
    fun s rl ov sv tex => rfl, fun rl ov sv tex => ⟨rfl, rfl⟩⟩
  · intro f rl pos text color oc ot
    unfold DX9.RenderText
    rw [or_and_masked flags 16 14 (by decide), or_and_masked flags 16 2 (by decide),
      or_and_masked flags 16 4 (by decide), or_and_masked flags 16 8 (by decide),
      or_and_masked flags 16 32 (by decide)]
    have ho : (flags &&& 32 != 0) = true := bne_iff_ne.mpr h
    rw [ho]
    exact dx9_RenderTextB_shadow_irrel f rl pos text color _ _ _ _ _ _ oc ot
  · intro f rl pos text color oc ot
    unfold DX11.RenderText
    rw [or_and_masked flags 16 14 (by decide), or_and_masked flags 16 2 (by decide),
      or_and_masked flags 16 4 (by decide), or_and_masked flags 16 8 (by decide),
      or_and_masked flags 16 32 (by decide)]
    have ho : (flags &&& 32 != 0) = true := bne_iff_ne.mpr h
    rw [ho]
    exact dx11_RenderTextB_shadow_irrel f rl pos text color _ _ _ _ _ _ oc ot

/-- C9, witness: with flags 32 = OUTLINE alone, rendering equals rendering
with flags `32 ||| 16 = 48` (OUTLINE and DROPSHADOW both set): the shadow
flag is ignored when the outline flag is set. -/
theorem claim_C9_witness :
    32 &&& 32 ≠ 0
  ∧ DX9.RenderText ⟨fun _ => none, 1024, 1024, 1, 0, none⟩
      (emptyRL DX9.Vertex DX9.TopologyType DX9.Texture) (0, 0) ['A'] ⟨0xFFFFFFFF⟩ 32 ⟨0xFF000000⟩ 2
    = DX9.RenderText ⟨fun _ => none, 1024, 1024, 1, 0, none⟩
      (emptyRL DX9.Vertex DX9.TopologyType DX9.Texture) (0, 0) ['A'] ⟨0xFFFFFFFF⟩ (32 ||| 16) ⟨0xFF000000⟩ 2 :=
  ⟨by decide, (claim_C9 32 (by decide)).1 _ _ _ _ _ _ _⟩

end CRF

namespace CRF

/-- The scanner cannot recognise a tag when fewer than 12 characters remain:
`text.size() > i + 11` fails. -/
theorem recogB_high (s : List Char) (i : Nat) (h : s.length ≤ i + 11) :
    recogB s i = false := by
  unfold recogB
  rw [decide_eq_false (by omega : ¬ (i + 11 < s.length))]
  simp

/-- Terminal case of the scan loop. -/
theorem go_stop (s : List Char) (i : Nat) (clean : List Char) (cur : Color)
    (h : ¬ i < s.length) :
    preprocessGo s i clean cur = if clean.isEmpty then [] else [(clean, cur)] := by
  rw [preprocessGo, dif_neg h]

/-- Verbatim-copy case of the scan loop. -/
theorem go_copy (s : List Char) (i : Nat) (clean : List Char) (cur : Color)
    (hlt : i < s.length) (hr : recogB s i = false) :
    preprocessGo s i clean cur = preprocessGo s (i + 1) (clean ++ [s.getD i ' ']) cur := by
  rw [preprocessGo, dif_pos hlt, if_neg (by simp [hr])]

/-- Tag-consumption case of the scan loop. -/
theorem go_tag (s : List Char) (i : Nat) (clean : List Char) (cur : Color)
    (hlt : i < s.length) (hr : recogB s i = true) :
    preprocessGo s i clean cur
      = (if clean.isEmpty then [] else [(clean, cur)])
        ++ preprocessGo s (i + (if s.getD (i + 10) ' ' == '}' then 11 else 9)) []
            ⟨hexVal (if !(s.getD (i + 10) ' ' == '}') then
                'f' :: 'f' ::
                  ((s.drop (i + 2)).take (if s.getD (i + 10) ' ' == '}' then 8 else 6)).filter iswxdigitB
              else
                ((s.drop (i + 2)).take (if s.getD (i + 10) ' ' == '}' then 8 else 6)).filter iswxdigitB)⟩ := by
  rw [preprocessGo, dif_pos hlt, if_pos hr]

/-- Terminal case of the cleaned-character stream. -/
theorem cleaned_stop (s : List Char) (i : Nat) (h : ¬ i < s.length) :
    cleanedFrom s i = [] := by
  rw [cleanedFrom, dif_neg h]

/-- Verbatim-copy case of the cleaned-character stream. -/
theorem cleaned_copy (s : List Char) (i : Nat) (hlt : i < s.length)
    (hr : recogB s i = false) :
    cleanedFrom s i = s.getD i ' ' :: cleanedFrom s (i + 1) := by
  rw [cleanedFrom, dif_pos hlt, if_neg (by simp [hr])]

/-- Tag-consumption case of the cleaned-character stream. -/
theorem cleaned_tag (s : List Char) (i : Nat) (hlt : i < s.length)
    (hr : recogB s i = true) :
    cleanedFrom s i
      = cleanedFrom s (i + (if s.getD (i + 10) ' ' == '}' then 11 else 9)) := by
  rw [cleanedFrom, dif_pos hlt, if_pos hr]

theorem concatTexts_append (a b : List TextSegment) :
    concatTexts (a ++ b) = concatTexts a ++ concatTexts b := by
  simp [concatTexts]

/-- One character past index `i`, `s.drop i` starts with `s.getD i ' '`. -/
theorem drop_cons_getD (s : List Char) (i : Nat) (hlt : i < s.length) :
    s.drop i = s.getD i ' ' :: s.drop (i + 1) := by
  rw [List.drop_eq_getElem_cons hlt, List.getD_eq_getElem?_getD, List.getElem?_eq_getElem hlt]
  rfl

/-- The concatenated segment texts are the accumulated clean text followed by
the cleaned character stream from the current index. -/
theorem go_concat (s : List Char) :
    ∀ (n i : Nat) (clean : List Char) (cur : Color), s.length - i ≤ n →
    concatTexts (preprocessGo s i clean cur) = clean ++ cleanedFrom s i := by
  intro n
  induction n with
  | zero =>
    intro i clean cur hn
    have hge : ¬ i < s.length := by omega
    rw [go_stop s i clean cur hge, cleaned_stop s i hge]
    by_cases hc : clean.isEmpty
    · rw [if_pos hc]
      simp [concatTexts, List.isEmpty_iff.mp hc]
    · rw [if_neg hc]
      simp [concatTexts]
  | succ n ih =>
    intro i clean cur hn
    by_cases hlt : i < s.length
    · by_cases hr : recogB s i = true
      · rw [go_tag s i clean cur hlt hr, cleaned_tag s i hlt hr, concatTexts_append]
        rw [ih (i + (if s.getD (i + 10) ' ' == '}' then 11 else 9)) [] _
          (by split_ifs <;> omega)]
        by_cases hc : clean.isEmpty
        · rw [if_pos hc]
          simp [concatTexts, List.isEmpty_iff.mp hc]
        · rw [if_neg hc]
          simp [concatTexts]
      · have hr2 : recogB s i = false := by simpa using hr
        rw [go_copy s i clean cur hlt hr2, cleaned_copy s i hlt hr2]
        rw [ih (i + 1) (clean ++ [s.getD i ' ']) cur (by omega)]
        simp
    · rw [go_stop s i clean cur hlt, cleaned_stop s i hlt]
      by_cases hc : clean.isEmpty
      · rw [if_pos hc]
        simp [concatTexts, List.isEmpty_iff.mp hc]
      · rw [if_neg hc]
        simp [concatTexts]

/-- When the scanner never recognises a tag from index `i` onwards, the rest
of the input is copied verbatim into a single trailing segment. -/
theorem go_noRecog (s : List Char) :
    ∀ (n i : Nat) (clean : List Char) (cur : Color), s.length - i ≤ n →
    (∀ j, i ≤ j → j < s.length → recogB s j = false) →
    preprocessGo s i clean cur
      = if (clean ++ s.drop i).isEmpty then [] else [(clean ++ s.drop i, cur)] := by
  intro n
  induction n with
  | zero =>
    intro i clean cur hn _h
    have hge : ¬ i < s.length := by omega
    rw [go_stop s i clean cur hge, List.drop_eq_nil_of_le (by omega)]
    simp
  | succ n ih =>
    intro i clean cur hn h
    by_cases hlt : i < s.length
    · rw [go_copy s i clean cur hlt (h i le_rfl hlt)]
      rw [ih (i + 1) (clean ++ [s.getD i ' ']) cur (by omega)
        (fun j hj hjl => h j (by omega) hjl)]
      rw [drop_cons_getD s i hlt]
      simp
    · rw [go_stop s i clean cur hlt, List.drop_eq_nil_of_le (by omega)]
      simp

end CRF

namespace CRF

/-- In the last 11 positions nothing can be recognised, so the cleaned
stream is the verbatim suffix. -/
theorem cleanedFrom_high (s : List Char) :
    ∀ (n i : Nat), s.length - i ≤ n → s.length ≤ i + 11 →
    cleanedFrom s i = s.drop i := by
  intro n
  induction n with
  | zero =>
    intro i hn h11
    have hge : ¬ i < s.length := by omega
    rw [cleaned_stop s i hge, List.drop_eq_nil_of_le (by omega)]
  | succ n ih =>
    intro i hn h11
    by_cases hlt : i < s.length
    · rw [cleaned_copy s i hlt (recogB_high s i h11)]
      rw [ih (i + 1) (by omega) (by omega), drop_cons_getD s i hlt]
    · rw [cleaned_stop s i hlt, List.drop_eq_nil_of_le (by omega)]

/-- When the last 9 characters of the input are `{`, `#`, six hex digits and
`}`, no recognised tag can jump into that final block: a recognised tag at
`i < length - 9` lands at or before `length - 9`. -/
theorem jump_fits (s : List Char) (h9 : 9 ≤ s.length)
    (hbr : s.getD (s.length - 9) ' ' = '{')
    (hsh : s.getD (s.length - 8) ' ' = '#')
    (hhex : ∀ k, k < 8 → 2 ≤ k → iswxdigitB (s.getD (s.length - 9 + k) ' ') = true)
    (i : Nat) (hi : i < s.length - 9) (hr : recogB s i = true) :
    i + (if s.getD (i + 10) ' ' == '}' then 11 else 9) ≤ s.length - 9 := by
  have hr' : s.getD i ' ' = '{' ∧ i + 11 < s.length ∧ s.getD (i + 1) ' ' = '#'
      ∧ (s.getD (i + 10) ' ' = '}' ∨ s.getD (i + 8) ' ' = '}') := by
    simpa only [recogB, Bool.and_eq_true, Bool.or_eq_true, beq_iff_eq, decide_eq_true_eq,
      and_assoc] using hr
  obtain ⟨_h0, h11, _h1, hdis⟩ := hr'
  have hbrace : ('{' : Char) ≠ '}' := by decide
  have hshn : ('#' : Char) ≠ '}' := by decide
  by_cases hA : s.getD (i + 10) ' ' = '}'
  · rw [if_pos (by simpa using hA)]
    by_contra hcon
    push_neg at hcon
    rcases (by omega : i + 10 = s.length - 9 ∨ i + 10 = s.length - 8
        ∨ (2 ≤ i + 10 - (s.length - 9) ∧ i + 10 - (s.length - 9) < 8
            ∧ i + 10 = s.length - 9 + (i + 10 - (s.length - 9)))) with hp | hp | ⟨hk2, hk8, hkp⟩
    · rw [hp] at hA
      exact hbrace (hbr.symm.trans hA)
    · rw [hp] at hA
      exact hshn (hsh.symm.trans hA)
    · have hx := hhex (i + 10 - (s.length - 9)) hk8 hk2
      rw [← hkp, hA] at hx
      exact absurd hx (by decide)
  · rw [if_neg (by simpa using hA)]
    have hN : s.getD (i + 8) ' ' = '}' := hdis.resolve_left hA
    by_contra hcon
    push_neg at hcon
    rcases (by omega : i + 8 = s.length - 9 ∨ i + 8 = s.length - 8
        ∨ (2 ≤ i + 8 - (s.length - 9) ∧ i + 8 - (s.length - 9) < 8
            ∧ i + 8 = s.length - 9 + (i + 8 - (s.length - 9)))) with hp | hp | ⟨hk2, hk8, hkp⟩
    · rw [hp] at hN
      exact hbrace (hbr.symm.trans hN)
    · rw [hp] at hN
      exact hshn (hsh.symm.trans hN)
    · have hx := hhex (i + 8 - (s.length - 9)) hk8 hk2
      rw [← hkp, hN] at hx
      exact absurd hx (by decide)

/-- Under the final-tag hypotheses, the cleaned stream from any index at or
before the tag start keeps the tag as a suffix. -/
theorem cleaned_suffix (s : List Char) (h9 : 9 ≤ s.length)
    (hbr : s.getD (s.length - 9) ' ' = '{')
    (hsh : s.getD (s.length - 8) ' ' = '#')
    (hhex : ∀ k, k < 8 → 2 ≤ k → iswxdigitB (s.getD (s.length - 9 + k) ' ') = true) :
    ∀ (n i : Nat), (s.length - 9) - i ≤ n → i ≤ s.length - 9 →
    s.drop (s.length - 9) <:+ cleanedFrom s i := by
  intro n
  induction n with
  | zero =>
    intro i hn hi
    have hieq : i = s.length - 9 := by omega
    rw [cleanedFrom_high s s.length i (by omega) (by omega), hieq]
  | succ n ih =>
    intro i hn hi
    rcases Nat.lt_or_ge i (s.length - 9) with hlt9 | hge9
    · have hlt : i < s.length := by omega
      by_cases hr : recogB s i = true
      · rw [cleaned_tag s i hlt hr]
        have hj := jump_fits s h9 hbr hsh hhex i hlt9 hr
        refine ih (i + (if s.getD (i + 10) ' ' == '}' then 11 else 9)) ?_ hj
        split_ifs at hj ⊢ <;> omega
      · rw [cleaned_copy s i hlt (by simpa using hr)]
        exact (ih (i + 1) (by omega) (by omega)).trans (List.suffix_cons _ _)
    · have hieq : i = s.length - 9 := by omega
      rw [cleanedFrom_high s s.length i (by omega) (by omega), hieq]

end CRF

namespace CRF

/-- C4, counterexample: on the empty string — which contains no color tag —
`PreprocessText` returns no segment at all, not one segment equal to the
input, because the final `if (!cleanText.empty())` push is skipped. -/
theorem claim_C4_counterexample :
    ¬ ((PreprocessText [] ⟨0xFF000000⟩).length = 1) := by
  have h0 : (PreprocessText [] (⟨0xFF000000⟩ : Color)).length = 0 := by
    simp [PreprocessText, preprocessGo]
  omega

/-- C4, amended: for every nonempty input in which the scanner recognises no
tag start (no index with a brace/hash pattern and a closing brace at offset
8 or 10 and at least 12 characters remaining), `PreprocessText` returns
exactly one segment: the input text with the caller-supplied default color. -/
theorem claim_C4_amended (s : List Char) (c : Color) (hne : s ≠ [])
    (hno : ∀ j, j < s.length → recogB s j = false) :
    PreprocessText s c = [(s, c)] := by
  unfold PreprocessText
  rw [go_noRecog s s.length 0 [] c (by omega) (fun j _ hj => hno j hj)]
  simp [hne]

/-- C4, witness: a two-character tagless string round-trips. -/
theorem claim_C4_witness :
    PreprocessText ['a', 'b'] ⟨0xFF000000⟩ = [(['a', 'b'], ⟨0xFF000000⟩)] :=
  claim_C4_amended ['a', 'b'] ⟨0xFF000000⟩ (by decide) (by decide)

/-- C5, counterexample: the malformed tag `{#ZZZZZZ}` (non-hexadecimal
characters between the braces) followed by `abc` is consumed, not left
verbatim: the recognition test only checks the brace positions, the
non-hex characters are filtered out, and the color becomes
`wcstoul("ff") = 0xFF`.  The concatenated output text is `abc` and contains
no `{`. -/
theorem claim_C5_counterexample :
    concatTexts (PreprocessText ['{', '#', 'Z', 'Z', 'Z', 'Z', 'Z', 'Z', '}', 'a', 'b', 'c']
        ⟨0xFF000000⟩) = ['a', 'b', 'c']
  ∧ '{' ∉ concatTexts (PreprocessText ['{', '#', 'Z', 'Z', 'Z', 'Z', 'Z', 'Z', '}', 'a', 'b', 'c']
        ⟨0xFF000000⟩) := by
  have h : PreprocessText ['{', '#', 'Z', 'Z', 'Z', 'Z', 'Z', 'Z', '}', 'a', 'b', 'c']
      (⟨0xFF000000⟩ : Color) = [(['a', 'b', 'c'], ⟨0xff⟩)] := by
    simp +decide [PreprocessText, preprocessGo, recogB, hexVal, hexDigitVal, iswxdigitB]
  rw [h]
  constructor
  · rfl
  · decide

/-- C5, amended: every character at a position where the scanner recognises
no tag start is left in the output verbatim; in particular, when no position
is recognised — every tag with a missing `}`, a `}` at the wrong offset
(wrong digit count), or fewer than 12 characters remaining — the
concatenated segment texts equal the input unchanged.  (A malformed tag
whose braces happen to sit at a recognised offset is consumed instead,
cf. the counterexample.) -/
theorem claim_C5_amended (s : List Char) (c : Color)
    (hno : ∀ j, j < s.length → recogB s j = false) :
    concatTexts (PreprocessText s c) = s := by
  unfold PreprocessText
  rw [go_noRecog s s.length 0 [] c (by omega) (fun j _ hj => hno j hj)]
  by_cases hs : s = []
  · simp [hs, concatTexts]
  · simp [hs, concatTexts]

/-- C5, witness: `{#12345}` (wrong digit count, no `}` at offset 8 or 10)
inside a 12-character string stays verbatim. -/
theorem claim_C5_witness :
    concatTexts (PreprocessText ['{', '#', '1', '2', '3', '4', '5', '}', 'x', 'x', 'x', 'x']
        ⟨0xFF000000⟩) = ['{', '#', '1', '2', '3', '4', '5', '}', 'x', 'x', 'x', 'x'] :=
  claim_C5_amended ['{', '#', '1', '2', '3', '4', '5', '}', 'x', 'x', 'x', 'x'] ⟨0xFF000000⟩
    (by decide)

/-- C10: a color tag is recognised at `i` only when `length > i + 11` — at
any index with 11 or fewer characters remaining the scanner copies the
character verbatim — and consequently, when the input ends with a
well-formed 6-digit tag as its final 9 characters, that tag is not consumed:
it survives verbatim as a suffix of the concatenated segment texts. -/
theorem claim_C10 (s : List Char) (c : Color) :
    (∀ (i : Nat) (clean : List Char) (cur : Color), i < s.length → s.length ≤ i + 11 →
      preprocessGo s i clean cur = preprocessGo s (i + 1) (clean ++ [s.getD i ' ']) cur)
  ∧ (9 ≤ s.length →
     s.getD (s.length - 9) ' ' = '{' →
     s.getD (s.length - 8) ' ' = '#' →
     (∀ k, k < 8 → 2 ≤ k → iswxdigitB (s.getD (s.length - 9 + k) ' ') = true) →
     s.getD (s.length - 1) ' ' = '}' →
     s.drop (s.length - 9) <:+ concatTexts (PreprocessText s c)) := by
  constructor
  · intro i clean cur hlt h11
    exact go_copy s i clean cur hlt (recogB_high s i h11)
  · intro h9 hbr hsh hhex _hclose
    have hconcat : concatTexts (PreprocessText s c) = cleanedFrom s 0 := by
      unfold PreprocessText
      rw [go_concat s s.length 0 [] c (by omega)]
      rfl
    rw [hconcat]
    exact cleaned_suffix s h9 hbr hsh hhex s.length 0 (by omega) (by omega)

/-- C10, witness: `xx{#AABBCC}` ends with a well-formed 6-digit tag in its
final 9 characters and is 11 characters long, so nothing is consumed; also
the scanner's very first step copies the leading `x` verbatim. -/
theorem claim_C10_witness :
    preprocessGo ['x', 'x', '{', '#', 'A', 'A', 'B', 'B', 'C', 'C', '}'] 0 [] ⟨0xFF000000⟩
      = preprocessGo ['x', 'x', '{', '#', 'A', 'A', 'B', 'B', 'C', 'C', '}'] 1 ['x'] ⟨0xFF000000⟩
  ∧ ['{', '#', 'A', 'A', 'B', 'B', 'C', 'C', '}']
      <:+ concatTexts (PreprocessText ['x', 'x', '{', '#', 'A', 'A', 'B', 'B', 'C', 'C', '}']
        ⟨0xFF000000⟩) :=
  ⟨(claim_C10 ['x', 'x', '{', '#', 'A', 'A', 'B', 'B', 'C', 'C', '}'] ⟨0xFF000000⟩).1 0 [] ⟨0xFF000000⟩
      (by decide) (by decide),
   (claim_C10 ['x', 'x', '{', '#', 'A', 'A', 'B', 'B', 'C', 'C', '}'] ⟨0xFF000000⟩).2
      (by decide) (by decide) (by decide) (by decide) (by decide)⟩

end CRF
